import Mathlib

/-!
# Carousel widget of `src/carousel.js`

A shallow embedding of the three carousel classes (`CarouselManager`,
`FadeCarousel`, `ProgressCarousel`) together with the part of the host page
they act on: the slide and indicator elements, the registered event
listeners, the repeating timers (`setInterval`) and the one-shot delayed
callbacks (`setTimeout`).

Conventions.

* A JavaScript number is an `Option Int`: `some i` is the integer `i`,
  `none` is `NaN`.  A field the constructor never assigned (`undefined`)
  is `none` as well; in arithmetic and in `<`, `>=` it behaves as `NaN`.
* A class-list is reduced to the one class the code touches (`active`),
  an inline style to the properties the code writes.
* Method dispatch on `this` is a `match` on the `variant` field.
-/

namespace Futogist

/-! ## Host values -/

/-- The three classes of `carousel.js`. -/
inductive Variant where
  | base
  | fade
  | progress
  deriving DecidableEq, Repr

/-- Inline `style.opacity` of a slide: never written, `'0'` or `'1'`. -/
inductive Opacity where
  | unset
  | zero
  | one
  deriving DecidableEq, Repr

/-- Inline `style.width` of the progress fill: `'0%'` or `'100%'`. -/
inductive Width where
  | pct0
  | pct100
  deriving DecidableEq, Repr

/-- Inline `style.transition` of the progress fill: `width 0.3s ease` (from
`createProgressBar`) or `width <ms>ms linear` (from `animateProgress`, with
`ms` the value of `this.autoPlayDelay`, `none` when it is `undefined`). -/
inductive Transition where
  | ease300
  | linear (ms : Option Nat)
  deriving DecidableEq, Repr

/-- One `.carousel-slide` element. -/
structure Slide where
  active : Bool
  opacity : Opacity
  deriving DecidableEq, Repr

/-- The `.carousel-progress-fill` element. -/
structure Fill where
  width : Width
  transition : Transition
  deriving DecidableEq, Repr

/-- An `addEventListener` registration made by the instance. -/
inductive Listener where
  | indicatorClick (i : Nat)
  | prevClick
  | nextClick
  | mouseenter
  | mouseleave
  | touchstart
  | touchend
  | keydown
  deriving DecidableEq, Repr

/-- The body of a `setTimeout` callback.  `fadeOut` is the callback of
`FadeCarousel.showSlide` that removes `active` from
`this.slides[this.currentSlide]` (read when the callback runs), `fadeIn index`
the one that activates `this.slides[index]`, `fillKickoff` the callback of
`animateProgress`. -/
inductive Callback where
  | fadeOut
  | fadeIn (index : Int)
  | fillKickoff
  deriving DecidableEq, Repr

/-- A pending `setTimeout(cb, delay)`. -/
structure Timeout where
  delay : Nat
  cb : Callback
  deriving DecidableEq, Repr

/-- A live `setInterval(() => this.nextSlide(), delay)`, known by its handle. -/
structure Interval where
  handle : Nat
  delay : Option Nat
  deriving DecidableEq, Repr

/-- What `document.getElementById(carouselId)` finds: the `.carousel-slide`
descendants in document order, whether `.carousel-btn.prev` and
`.carousel-btn.next` exist, and the `.carousel-indicators` container (if any)
with the `active` flags of whatever `.indicator` elements the markup put in. -/
structure Markup where
  slides : List Slide
  prevBtn : Bool
  nextBtn : Bool
  indicators : Option (List Bool)
  deriving DecidableEq, Repr

/-- An uncaught exception. -/
inductive JsError where
  | typeError
  deriving DecidableEq, Repr

/-- One carousel instance and the host state it owns.

Instance fields keep their source names.  `carousel` tells whether
`this.carousel` is an element (`true`) or `null`; `indicators` is `none` when
`this.indicatorsContainer` is `null`, else the `active` flags of the
container's `.indicator` children; `positionRelative` and `progressBars`
record `createProgressBar`; `startX .. endY` are the closure variables of
`addTouchSupport`.  `listeners`, `intervals`, `timeouts` are the host's
records of what this instance registered and scheduled, `issued` counts the
timer handles the host has given out. -/
structure State where
  variant : Variant
  carousel : Bool
  slides : List Slide
  prevBtn : Bool
  nextBtn : Bool
  indicators : Option (List Bool)
  currentSlide : Option Int
  slideCount : Option Nat
  autoPlayInterval : Option Nat
  autoPlayDelay : Option Nat
  progressFill : Option Fill
  progressBars : Nat
  positionRelative : Bool
  startX : Int
  startY : Int
  endX : Int
  endY : Int
  listeners : List Listener
  intervals : List Interval
  issued : Nat
  timeouts : List Timeout
  deriving DecidableEq, Repr

/-! ## JavaScript numbers -/

/-- JavaScript `a + b` on numbers (`NaN` absorbs). -/
def jsAdd (a b : Option Int) : Option Int :=
  match a, b with
  | some x, some y => some (x + y)
  | _, _ => none

/-- JavaScript `a - b` on numbers. -/
def jsSub (a b : Option Int) : Option Int :=
  match a, b with
  | some x, some y => some (x - y)
  | _, _ => none

/-- JavaScript `a % b`: the remainder takes the sign of the dividend, and a
zero divisor gives `NaN`. -/
def jsMod (a b : Option Int) : Option Int :=
  match a, b with
  | some x, some y => if y = 0 then none else some (Int.tmod x y)
  | _, _ => none

/-- The field `this.slideCount` as a number. -/
def slideCountNum (s : State) : Option Int :=
  s.slideCount.map Int.ofNat

/-- Array read `xs[k]` for a number `k`: `undefined` unless `k` is an index. -/
def jsIndex {α : Type} (xs : List α) (k : Option Int) : Option α :=
  match k with
  | some i => if 0 ≤ i then xs[i.toNat]? else none
  | none => none

/-- Apply `f` to the element `xs[k]`, when there is one. -/
def jsUpdate {α : Type} (xs : List α) (k : Option Int) (f : α → α) : List α :=
  match k with
  | some i =>
    if 0 ≤ i then
      match xs[i.toNat]? with
      | some x => xs.set i.toNat (f x)
      | none => xs
    else xs
  | none => xs

/-! ## CarouselManager -/

/-- The indicator loop shared by both `showSlide` bodies: every indicator
loses `active`, the one with `i === index` gets it. -/
def updateIndicators (s : State) (index : Int) : Option (List Bool) :=
  s.indicators.map fun inds => inds.mapIdx fun i _ => decide ((i : Int) = index)

/-- The method `CarouselManager.showSlide(index)`. -/
def showSlideBase (s : State) (index : Int) : State :=
  { s with
    slides := s.slides.mapIdx fun i sl => { sl with active := decide ((i : Int) = index) }
    indicators := updateIndicators s index
    currentSlide := some index }

/-- The method `FadeCarousel.showSlide(index)`. -/
def showSlideFade (s : State) (index : Int) : State :=
  let s1 : State :=
    match jsIndex s.slides s.currentSlide with
    | some _ =>
      { s with
        slides := jsUpdate s.slides s.currentSlide fun sl => { sl with opacity := Opacity.zero }
        timeouts := s.timeouts ++ [⟨300, Callback.fadeOut⟩] }
    | none => s
  let s2 : State := { s1 with timeouts := s1.timeouts ++ [⟨300, Callback.fadeIn index⟩] }
  { s2 with
    indicators := updateIndicators s2 index
    currentSlide := some index }

/-- The call `this.showSlide(index)`; `ProgressCarousel` inherits the base body. -/
def showSlide (s : State) (index : Int) : State :=
  match s.variant with
  | Variant.fade => showSlideFade s index
  | _ => showSlideBase s index

/-- The guard of `CarouselManager.goToSlide`:
`index >= 0 && index < this.slideCount && index !== this.currentSlide`.
A comparison with `NaN` or `undefined` is false. -/
def goToSlideGuard (s : State) (index : Option Int) : Bool :=
  match index with
  | none => false
  | some i =>
    decide (0 ≤ i) &&
    (match s.slideCount with
     | some n => decide (i < (n : Int))
     | none => false) &&
    decide (s.currentSlide ≠ some i)

/-- The method `CarouselManager.goToSlide(index)`. -/
def goToSlideBase (s : State) (index : Option Int) : State :=
  match index with
  | some i => if goToSlideGuard s (some i) then showSlide s i else s
  | none => s

/-- The method `ProgressCarousel.animateProgress()`. -/
def animateProgress (s : State) : State :=
  match s.progressFill with
  | none => s
  | some _ =>
    { s with
      progressFill := some ⟨Width.pct0, Transition.linear s.autoPlayDelay⟩
      timeouts := s.timeouts ++ [⟨100, Callback.fillKickoff⟩] }

/-- The call `this.goToSlide(index)`: `ProgressCarousel` overrides it with
`super.goToSlide(index); if (this.autoPlayInterval) this.animateProgress();`.
A timer handle is never falsy, so the test is `isSome`. -/
def goToSlide (s : State) (index : Option Int) : State :=
  match s.variant with
  | Variant.progress =>
    let s1 := goToSlideBase s index
    if s1.autoPlayInterval.isSome then animateProgress s1 else s1
  | _ => goToSlideBase s index

/-- The method `nextSlide()`. -/
def nextSlide (s : State) : State :=
  goToSlide s (jsMod (jsAdd s.currentSlide (some 1)) (slideCountNum s))

/-- The method `previousSlide()`. -/
def previousSlide (s : State) : State :=
  goToSlide s (jsMod (jsAdd (jsSub s.currentSlide (some 1)) (slideCountNum s)) (slideCountNum s))

/-- The method `pauseAutoPlay()`: `clearInterval` drops the timer with that handle. -/
def pauseAutoPlay (s : State) : State :=
  match s.autoPlayInterval with
  | some h =>
    { s with
      intervals := s.intervals.filter fun t => decide (t.handle ≠ h)
      autoPlayInterval := none }
  | none => s

/-- The method `CarouselManager.startAutoPlay()`: `setInterval` hands out the
next handle (a positive integer) and records the timer. -/
def startAutoPlayBase (s : State) : State :=
  let s1 := pauseAutoPlay s
  { s1 with
    intervals := s1.intervals ++ [⟨s1.issued + 1, s1.autoPlayDelay⟩]
    issued := s1.issued + 1
    autoPlayInterval := some (s1.issued + 1) }

/-- The call `this.startAutoPlay()`: `ProgressCarousel` adds `animateProgress()`. -/
def startAutoPlay (s : State) : State :=
  match s.variant with
  | Variant.progress => animateProgress (startAutoPlayBase s)
  | _ => startAutoPlayBase s

/-- The method `toggleAutoPlay()`. -/
def toggleAutoPlay (s : State) : State :=
  if s.autoPlayInterval.isSome then pauseAutoPlay s else startAutoPlay s

/-- The method `destroy()`: only `this.pauseAutoPlay()`; the source has the
comment `Remove event listeners if needed` and no further statement. -/
def destroy (s : State) : State :=
  pauseAutoPlay s

/-- The method `createIndicators()`. -/
def createIndicators (s : State) : State :=
  match s.indicators with
  | none => s
  | some _ =>
    { s with
      indicators := some (List.replicate (s.slideCount.getD 0) false)
      listeners := s.listeners ++ (List.range (s.slideCount.getD 0)).map Listener.indicatorClick }

/-- The methods `bindEvents()` and `addTouchSupport()`. -/
def bindEvents (s : State) : State :=
  { s with
    listeners :=
      s.listeners ++ (if s.prevBtn then [Listener.prevClick] else []) ++
        (if s.nextBtn then [Listener.nextClick] else []) ++
        [Listener.mouseenter, Listener.mouseleave, Listener.touchstart, Listener.touchend,
          Listener.keydown]
    startX := 0
    startY := 0
    endX := 0
    endY := 0 }

/-- The method `init()`. -/
def init (s : State) : State :=
  if s.slideCount = some 0 then s
  else showSlide (startAutoPlay (bindEvents (createIndicators s))) 0

/-- The instance before the constructor body has assigned anything. -/
def blank (v : Variant) (issued : Nat) : State :=
  { variant := v
    carousel := false
    slides := []
    prevBtn := false
    nextBtn := false
    indicators := none
    currentSlide := none
    slideCount := none
    autoPlayInterval := none
    autoPlayDelay := none
    progressFill := none
    progressBars := 0
    positionRelative := false
    startX := 0
    startY := 0
    endX := 0
    endY := 0
    listeners := []
    intervals := []
    issued := issued
    timeouts := [] }

/-- The constructor of `CarouselManager`, run for an instance of class `v`;
`el` is the result of `document.getElementById(carouselId)`. -/
def constructBase (v : Variant) (el : Option Markup) (issued : Nat) : State :=
  match el with
  | none => blank v issued
  | some m =>
    init
      { blank v issued with
        carousel := true
        slides := m.slides
        prevBtn := m.prevBtn
        nextBtn := m.nextBtn
        indicators := m.indicators
        currentSlide := some 0
        slideCount := some m.slides.length
        autoPlayInterval := none
        autoPlayDelay := some 5000 }

/-- The method `ProgressCarousel.createProgressBar()`.  The statement
`this.carousel.style.position = 'relative'` reads a property of
`this.carousel`, which throws a `TypeError` when that is `null`. -/
def createProgressBar (s : State) : Except JsError State :=
  if s.carousel then
    Except.ok
      { s with
        positionRelative := true
        progressBars := s.progressBars + 1
        progressFill := some ⟨Width.pct0, Transition.ease300⟩ }
  else Except.error JsError.typeError

/-- The expression `new C(carouselId)` for the class `C` named by `v`. -/
def construct (v : Variant) (el : Option Markup) (issued : Nat) : Except JsError State :=
  match v with
  | Variant.progress => createProgressBar (constructBase v el issued)
  | _ => Except.ok (constructBase v el issued)

/-! ## Delayed callbacks and repeating timers -/

/-- Run the body of one `setTimeout` callback.  A callback that reads a
property of `undefined` throws inside the timer task; nothing catches it and
the instance is left as it was. -/
def runCallback (s : State) (cb : Callback) : State :=
  match cb with
  | Callback.fadeOut =>
    { s with slides := jsUpdate s.slides s.currentSlide fun sl => { sl with active := false } }
  | Callback.fadeIn index =>
    { s with
      slides := jsUpdate s.slides (some index) fun sl =>
        { sl with active := true, opacity := Opacity.one } }
  | Callback.fillKickoff =>
    { s with progressFill := s.progressFill.map fun f => { f with width := Width.pct100 } }

/-- Let every pending delayed callback run, in the order it was scheduled.
All callbacks one instance schedules have the same delay (300 ms in
`FadeCarousel`, 100 ms in `ProgressCarousel`), so this is the order in which
the host fires them. -/
def settle (s : State) : State :=
  s.timeouts.foldl (fun st t => runCallback st t.cb) { s with timeouts := [] }

/-- One period of the repeating timers elapses: each live timer of this
carousel runs its callback `() => this.nextSlide()` once. -/
def fireIntervals (s : State) : State :=
  s.intervals.foldl (fun st _ => nextSlide st) s

/-! ## Input handlers -/

/-- The navigation a finished touch gesture asks for. -/
inductive Swipe where
  | previous
  | next
  deriving DecidableEq, Repr

/-- The decision of the `touchend` listener on `deltaX`, `deltaY`:
`Math.abs(deltaX) > Math.abs(deltaY) && Math.abs(deltaX) > 50`, then the sign
of `deltaX`. -/
def swipeOf (deltaX deltaY : Int) : Option Swipe :=
  if deltaX.natAbs > deltaY.natAbs ∧ deltaX.natAbs > 50 then
    if deltaX > 0 then some Swipe.previous else some Swipe.next
  else none

/-- The `touchstart` listener of `addTouchSupport`. -/
def onTouchStart (s : State) (x y : Int) : State :=
  { s with startX := x, startY := y }

/-- The `touchend` listener of `addTouchSupport`. -/
def onTouchEnd (s : State) (x y : Int) : State :=
  let s1 : State := { s with endX := x, endY := y }
  match swipeOf (s1.endX - s1.startX) (s1.endY - s1.startY) with
  | some Swipe.previous => previousSlide s1
  | some Swipe.next => nextSlide s1
  | none => s1

/-- What a handled key asks for. -/
inductive KeyAction where
  | previous
  | next
  | toggle
  deriving DecidableEq, Repr

/-- The `switch (e.key)` of `handleKeyboard`. -/
def keyAction (key : String) : Option KeyAction :=
  if key = "ArrowLeft" then some KeyAction.previous
  else if key = "ArrowRight" then some KeyAction.next
  else if key = " " ∨ key = "Enter" then some KeyAction.toggle
  else none

/-- The method `handleKeyboard(e)`, as the `keydown` listener runs it on a
carousel whose `this.carousel` is an element (`bindEvents` registers it for
no other); `focusInside` is the value of
`this.carousel.contains(document.activeElement)`.  The second component tells
whether `e.preventDefault()` was called. -/
def handleKeyboard (s : State) (key : String) (focusInside : Bool) : State × Bool :=
  if focusInside then
    match keyAction key with
    | some KeyAction.previous => (previousSlide s, true)
    | some KeyAction.next => (nextSlide s, true)
    | some KeyAction.toggle => (toggleAutoPlay s, true)
    | none => (s, false)
  else (s, false)

/-- An input event the host delivers. -/
inductive Event where
  | indicatorClick (i : Nat)
  | prevClick
  | nextClick
  | mouseenter
  | mouseleave
  | touchstart (x y : Int)
  | touchend (x y : Int)
  | keydown (key : String) (focusInside : Bool)
  deriving DecidableEq, Repr

/-- The registration an event is delivered to. -/
def Event.listener (e : Event) : Listener :=
  match e with
  | Event.indicatorClick i => Listener.indicatorClick i
  | Event.prevClick => Listener.prevClick
  | Event.nextClick => Listener.nextClick
  | Event.mouseenter => Listener.mouseenter
  | Event.mouseleave => Listener.mouseleave
  | Event.touchstart _ _ => Listener.touchstart
  | Event.touchend _ _ => Listener.touchend
  | Event.keydown _ _ => Listener.keydown

/-- The body of the listener registered for an event. -/
def handle (s : State) (e : Event) : State :=
  match e with
  | Event.indicatorClick i => goToSlide s (some (i : Int))
  | Event.prevClick => previousSlide s
  | Event.nextClick => nextSlide s
  | Event.mouseenter => pauseAutoPlay s
  | Event.mouseleave => startAutoPlay s
  | Event.touchstart x y => onTouchStart s x y
  | Event.touchend x y => onTouchEnd s x y
  | Event.keydown key focusInside => (handleKeyboard s key focusInside).1

/-- The host delivers an event: every registration of the matching listener
runs, once each; with none registered nothing runs. -/
def dispatch (s : State) (e : Event) : State :=
  (s.listeners.filter fun l => decide (l = e.listener)).foldl (fun st _ => handle st e) s

/-- A call of one of the three navigation methods. -/
inductive NavCall where
  | next
  | previous
  | goTo (index : Int)
  deriving DecidableEq, Repr

/-- Perform a navigation call. -/
def NavCall.run (s : State) (c : NavCall) : State :=
  match c with
  | NavCall.next => nextSlide s
  | NavCall.previous => previousSlide s
  | NavCall.goTo index => goToSlide s (some index)

/-- A call or pointer event that concerns auto-play. -/
inductive AutoPlayStep where
  | start
  | pause
  | toggle
  | pointerEnter
  | pointerLeave
  deriving DecidableEq, Repr

/-- Perform an auto-play step; the two pointer events go through `dispatch`. -/
def AutoPlayStep.run (s : State) (a : AutoPlayStep) : State :=
  match a with
  | AutoPlayStep.start => startAutoPlay s
  | AutoPlayStep.pause => pauseAutoPlay s
  | AutoPlayStep.toggle => toggleAutoPlay s
  | AutoPlayStep.pointerEnter => dispatch s Event.mouseenter
  | AutoPlayStep.pointerLeave => dispatch s Event.mouseleave

/-- The timer bookkeeping of an instance is consistent: the live repeating
timers it scheduled are exactly the one named by `autoPlayInterval`, or none
when that field is `null`. -/
def TimerInv (s : State) : Prop :=
  s.intervals.map Interval.handle = s.autoPlayInterval.toList

/-- Among the flags, the one at position `c` is set and no other is: exactly
one element is marked active, namely the one at `c`. -/
def ActiveOnlyAt (flags : List Bool) (c : Nat) : Prop :=
  c < flags.length ∧ ∀ i : Nat, i < flags.length → (flags[i]? = some true ↔ i = c)

/-- A default carousel on one slide whose markup has no `.carousel-indicators`
container. -/
def bareBase : State :=
  constructBase Variant.base (some ⟨[⟨true, Opacity.unset⟩], false, false, none⟩) 0

/-- What the navigation methods keep true of a default carousel on `N` slides. -/
def BaseInv (N : Nat) (hasInd : Bool) (s : State) : Prop :=
  s.variant = Variant.base ∧ s.slideCount = some N ∧ s.slides.length = N ∧
    s.indicators.isSome = hasInd ∧
    ∃ c : Nat, s.currentSlide = some (c : Int) ∧ ActiveOnlyAt (s.slides.map Slide.active) c ∧
      ∀ inds, s.indicators = some inds → inds.length = N ∧ ActiveOnlyAt inds c

/-- A two-slide page fragment, the first slide marked active. -/
def twoSlides : Markup :=
  { slides := [⟨true, Opacity.unset⟩, ⟨false, Opacity.unset⟩]
    prevBtn := true
    nextBtn := true
    indicators := some [] }

/-- A `FadeCarousel` built on `twoSlides`, once the two delayed callbacks of
its first `showSlide(0)` have run. -/
def fadeDemo : State :=
  settle (constructBase Variant.fade (some twoSlides) 0)

/-- A three-slide page fragment with both buttons and an empty indicator
container, the first slide marked active (the shape `createCarousel` emits). -/
def demoMarkup : Markup :=
  { slides := [⟨true, Opacity.unset⟩, ⟨false, Opacity.unset⟩, ⟨false, Opacity.unset⟩]
    prevBtn := true
    nextBtn := true
    indicators := some [] }

/-- The default carousel built on `demoMarkup`. -/
def demoBase : State :=
  constructBase Variant.base (some demoMarkup) 0

/-- A `ProgressCarousel` built on `demoMarkup`: the base constructor followed
by the effect of `createProgressBar` on an existing container. -/
def progressDemo : State :=
  { constructBase Variant.progress (some demoMarkup) 0 with
    positionRelative := true
    progressBars := 1
    progressFill := some ⟨Width.pct0, Transition.ease300⟩ }


/-! ## Page and factory -/

/-- A slide descriptor `{title, description, icon?, buttonText?, buttonLink?}`;
an optional property that is missing is `none`. -/
structure SlideDesc where
  title : String
  description : String
  icon : Option String
  buttonText : Option String
  buttonLink : Option String
  deriving DecidableEq, Repr

/-- JavaScript `a || dflt` for an optional string: a missing or empty `a` is
falsy. -/
def jsOr (a : Option String) (dflt : String) : String :=
  match a with
  | some x => if x = "" then dflt else x
  | none => dflt

/-- The value of `options.type`: missing, a string, or a value of another
type (of which only the truthiness matters). -/
inductive JsValue where
  | undefined
  | str (s : String)
  | other (truthy : Bool)
  deriving DecidableEq, Repr

/-- The expression `options.type || 'default'`. -/
def carouselType (type : JsValue) : JsValue :=
  match type with
  | JsValue.undefined => JsValue.str "default"
  | JsValue.str s => if s = "" then JsValue.str "default" else JsValue.str s
  | JsValue.other truthy => if truthy then JsValue.other true else JsValue.str "default"

/-- The `switch (carouselType)` of `createCarousel`: which class is
instantiated.  The case labels are compared with `===`. -/
def switchType (t : JsValue) : Variant :=
  match t with
  | JsValue.str s =>
    if s = "fade" then Variant.fade
    else if s = "progress" then Variant.progress
    else Variant.base
  | _ => Variant.base

/-- The nodes of a page, as a run of siblings in document order: empty, a
text node followed by its later siblings, or an element (tag name, attributes
in source order, the opacity of its inline style, children) followed by its
later siblings. -/
inductive Dom where
  | nil
  | text (t : String) (siblings : Dom)
  | node (tag : String) (attrs : List (String × String)) (opacity : Opacity)
      (children : Dom) (siblings : Dom)
  deriving DecidableEq, Repr

/-- The value of an attribute, `""` when the element has none of that name. -/
def attrOf (attrs : List (String × String)) (name : String) : String :=
  match attrs with
  | [] => ""
  | kv :: rest => if kv.1 = name then kv.2 else attrOf rest name

/-- ASCII whitespace, which separates the tokens of a `class` attribute: tab,
line feed, form feed, carriage return, space. -/
def isAsciiWs (c : Char) : Bool :=
  c = Char.ofNat 9 || c = Char.ofNat 10 || c = Char.ofNat 12 || c = Char.ofNat 13 || c = ' '

/-- Split on ASCII whitespace; `cur` is the token being read. -/
def tokensAux (cur : List Char) (cs : List Char) : List (List Char) :=
  match cs with
  | [] => if cur = [] then [] else [cur]
  | c :: rest =>
    if isAsciiWs c then
      if cur = [] then tokensAux [] rest else cur :: tokensAux [] rest
    else tokensAux (cur ++ [c]) rest

/-- The class list of an element with this `class` attribute value. -/
def classTokens (value : String) : List String :=
  (tokensAux [] value.data).map String.mk

/-- Whether the class selector `.c` matches an element with these attributes
(in a document that is not in quirks mode: the comparison is case-sensitive). -/
def hasClass (attrs : List (String × String)) (c : String) : Bool :=
  (classTokens (attrOf attrs "class")).contains c

/-- The first element, in document order, whose id is `id`: its tag name and
its children. -/
def Dom.find (d : Dom) (id : String) : Option (String × Dom) :=
  match d with
  | Dom.nil => none
  | Dom.text _ sib => sib.find id
  | Dom.node tag attrs _ ch sib =>
    if attrOf attrs "id" = id then some (tag, ch)
    else
      match ch.find id with
      | some r => some r
      | none => sib.find id

/-- The call `document.getElementById(id)`: tag name and children of the
element found, or `none` for `null`.  No element has the empty string as its
id. -/
def getElementById (page : Dom) (id : String) : Option (String × Dom) :=
  if id = "" then none else page.find id

/-- Replace the children of the first element whose id is `id`: the effect of
`document.getElementById(id).innerHTML = html` on the page once `html` has
been parsed to `content`. -/
def setChildren (d : Dom) (id : String) (content : Dom) : Dom :=
  match d with
  | Dom.nil => Dom.nil
  | Dom.text t sib => Dom.text t (setChildren sib id content)
  | Dom.node tag attrs op ch sib =>
    if attrOf attrs "id" = id then Dom.node tag attrs op content sib
    else if (ch.find id).isSome then Dom.node tag attrs op (setChildren ch id content) sib
    else Dom.node tag attrs op ch (setChildren sib id content)

/-- The result of `querySelectorAll('.carousel-slide')` on an element with
these children: the matching descendants in document order, each with its
`active` flag and inline opacity. -/
def Dom.slides (d : Dom) : List Slide :=
  match d with
  | Dom.nil => []
  | Dom.text _ sib => sib.slides
  | Dom.node _ attrs op ch sib =>
    (if hasClass attrs "carousel-slide" then [⟨hasClass attrs "active", op⟩] else []) ++
      ch.slides ++ sib.slides

/-- Whether `querySelector('.carousel-btn.prev')` finds an element. -/
def Dom.hasPrev (d : Dom) : Bool :=
  match d with
  | Dom.nil => false
  | Dom.text _ sib => sib.hasPrev
  | Dom.node _ attrs _ ch sib =>
    (hasClass attrs "carousel-btn" && hasClass attrs "prev") || ch.hasPrev || sib.hasPrev

/-- Whether `querySelector('.carousel-btn.next')` finds an element. -/
def Dom.hasNext (d : Dom) : Bool :=
  match d with
  | Dom.nil => false
  | Dom.text _ sib => sib.hasNext
  | Dom.node _ attrs _ ch sib =>
    (hasClass attrs "carousel-btn" && hasClass attrs "next") || ch.hasNext || sib.hasNext

/-- The result of `querySelector('.carousel-indicators')`: the children of the
first such element, or `none`. -/
def Dom.indicatorsContainer (d : Dom) : Option Dom :=
  match d with
  | Dom.nil => none
  | Dom.text _ sib => sib.indicatorsContainer
  | Dom.node _ attrs _ ch sib =>
    if hasClass attrs "carousel-indicators" then some ch
    else
      match ch.indicatorsContainer with
      | some r => some r
      | none => sib.indicatorsContainer

/-- The `active` flags of the `.indicator` elements among the descendants. -/
def Dom.indicatorFlags (d : Dom) : List Bool :=
  match d with
  | Dom.nil => []
  | Dom.text _ sib => sib.indicatorFlags
  | Dom.node _ attrs _ ch sib =>
    (if hasClass attrs "indicator" then [hasClass attrs "active"] else []) ++
      ch.indicatorFlags ++ sib.indicatorFlags

/-- The text directly inside an element with these children: its text nodes,
joined. -/
def Dom.ownText (d : Dom) : String :=
  match d with
  | Dom.nil => ""
  | Dom.text t sib => t ++ sib.ownText
  | Dom.node _ _ _ _ sib => sib.ownText

/-- The text directly inside each element with tag name `tag`, in document
order. -/
def Dom.textsOf (d : Dom) (tag : String) : List String :=
  match d with
  | Dom.nil => []
  | Dom.text _ sib => sib.textsOf tag
  | Dom.node t _ _ ch sib =>
    (if t = tag then [ch.ownText] else []) ++ ch.textsOf tag ++ sib.textsOf tag

/-- What the constructor's four selectors find in an element with these
children. -/
def markupOf (children : Dom) : Markup :=
  { slides := children.slides
    prevBtn := children.hasPrev
    nextBtn := children.hasNext
    indicators := children.indicatorsContainer.map Dom.indicatorFlags }

/-! ### The template string -/

/-- A line break followed by `n` spaces: the indentation inside the template
literal of `createCarousel`. -/
def ws (n : Nat) : String :=
  String.mk (Char.ofNat 10 :: List.replicate n ' ')

/-- The inner template literal
`<a href="${slide.buttonLink || '#'}" class="btn btn-primary">...</a>`, or
`''` when `slide.buttonText` is falsy. -/
def buttonHTML (slide : SlideDesc) : String :=
  match slide.buttonText with
  | some txt =>
    if txt = "" then ""
    else "<a href=\"" ++ jsOr slide.buttonLink "#" ++ "\" class=\"btn btn-primary\">" ++ txt ++
      "</a>"
  | none => ""

/-- The template literal of one slide (source lines 294-307), line by line. -/
def slideHTML (slide : SlideDesc) (index : Nat) : String :=
  ws 20 ++ "<div class=\"carousel-slide " ++ (if index = 0 then "active" else "") ++ "\">" ++
  ws 24 ++ "<div class=\"slide-content\">" ++
  ws 28 ++ "<div class=\"slide-image\">" ++
  ws 32 ++ "<i class=\"" ++ jsOr slide.icon "fas fa-image" ++ "\">" ++ "</i>" ++
  ws 28 ++ "</div>" ++
  ws 28 ++ "<div class=\"slide-text\">" ++
  ws 32 ++ "<h3>" ++ slide.title ++ "</h3>" ++
  ws 32 ++ "<p>" ++ slide.description ++ "</p>" ++
  ws 32 ++ buttonHTML slide ++
  ws 28 ++ "</div>" ++
  ws 24 ++ "</div>" ++
  ws 20 ++ "</div>" ++
  ws 16

/-- The string `slides.map((slide, index) => ...).join('')`, from the
position `index` on. -/
def slidesHTML (index : Nat) (slides : List SlideDesc) : String :=
  match slides with
  | [] => ""
  | slide :: rest => slideHTML slide index ++ slidesHTML (index + 1) rest

/-- The template literal `carouselHTML` (source lines 291-317), line by line. -/
def carouselHTML (containerId : String) (slides : List SlideDesc) : String :=
  ws 8 ++ "<div class=\"carousel\" id=\"" ++ containerId ++ "-carousel\">" ++
  ws 12 ++ "<div class=\"carousel-track\">" ++
  ws 16 ++ slidesHTML 0 slides ++
  ws 12 ++ "</div>" ++
  ws 12 ++ "<button class=\"carousel-btn prev\">" ++
  ws 16 ++ "<i class=\"fas fa-chevron-left\">" ++ "</i>" ++
  ws 12 ++ "</button>" ++
  ws 12 ++ "<button class=\"carousel-btn next\">" ++
  ws 16 ++ "<i class=\"fas fa-chevron-right\">" ++ "</i>" ++
  ws 12 ++ "</button>" ++
  ws 12 ++ "<div class=\"carousel-indicators\">" ++ "</div>" ++
  ws 8 ++ "</div>" ++
  ws 4

/-! ### The host's HTML fragment parser, on the part of HTML modelled here

The setter of `innerHTML` parses its string with the HTML fragment parsing
algorithm.  The functions below model that algorithm on a part of HTML, on
which they build the tree the algorithm builds; on any other input they give
`none`, which stands for "not modelled", never for a result.  The part
modelled: the context element is a `div`; tags are `div`, `p`, `h3`,
`button`, `a`, `i`, written in lower case; an attribute is a name without
upper-case letters followed by `="`, a value and `"`, or a name alone right
before the `>`; white space, or nothing, stands between two attributes; no
attribute name twice; every element is closed by its own end tag; no `div`,
`p` or `h3` starts while a `p` is open, no `h3` directly inside an `h3`, no
`button` inside a `button`, no `a` inside an `a` (the cases where the
algorithm closes or moves elements); no carriage return or NUL; of the
character references only `&amp;`, `&lt;`, `&gt;`, `&quot;`, and an `&` that a
letter, a digit or `#` follows is nothing else. -/

/-- The double quote character. -/
def dquote : Char := Char.ofNat 34

/-- A character the tokenizer copies unchanged into a text node or an
attribute value, where it is not the delimiter. -/
def textOk (c : Char) : Bool :=
  !(c = '&' || c = Char.ofNat 13 || c = Char.ofNat 0)

/-- A character that stands for itself inside a double-quoted attribute
value. -/
def attrOk (c : Char) : Bool :=
  !(c = dquote || c = '&' || c = Char.ofNat 13 || c = Char.ofNat 0)

/-- A character of a tag name of the modelled part. -/
def nameChar (c : Char) : Bool :=
  c.isLower || c.isDigit

/-- Split before the first occurrence of `stop`. -/
def takeUntil (stop : Char) (cs : List Char) : List Char × List Char :=
  match cs with
  | [] => ([], [])
  | c :: rest =>
    if c = stop then ([], c :: rest)
    else ((c :: (takeUntil stop rest).1), (takeUntil stop rest).2)

/-- Split after the longest run of name characters. -/
def takeName (cs : List Char) : List Char × List Char :=
  match cs with
  | [] => ([], [])
  | c :: rest =>
    if nameChar c then ((c :: (takeName rest).1), (takeName rest).2)
    else ([], c :: rest)

/-- Remove the literal `lit` from the front of the input. -/
def dropLit (lit : List Char) (cs : List Char) : Option (List Char) :=
  match lit, cs with
  | [], cs => some cs
  | _ :: _, [] => none
  | l :: lit1, c :: rest => if l = c then dropLit lit1 rest else none

/-- White space between the parts of a tag: tab, line feed, form feed, space. -/
def isTagWs (c : Char) : Bool :=
  c = Char.ofNat 9 || c = Char.ofNat 10 || c = Char.ofNat 12 || c = ' '

/-- A character reference of the modelled part, read after its `&`: the
character it stands for and the number of characters of its name, the `;`
included. -/
def refAt (cs : List Char) : Option (Char × Nat) :=
  if (dropLit ['a', 'm', 'p', ';'] cs).isSome then some ('&', 4)
  else if (dropLit ['l', 't', ';'] cs).isSome then some ('<', 3)
  else if (dropLit ['g', 't', ';'] cs).isSome then some ('>', 3)
  else if (dropLit ['q', 'u', 'o', 't', ';'] cs).isSome then some (dquote, 5)
  else none

/-- Whether the input begins with a letter, a digit or `#`: after an `&`,
the start of a character reference. -/
def refStart (cs : List Char) : Bool :=
  match cs with
  | [] => false
  | c :: _ => c.isAlphanum || c = '#'

/-- The characters of a text node or of an attribute value, from the
characters between two delimiters: character references replaced by what they
stand for, an `&` that starts none kept.  The first `skip` characters are the
rest of a reference already replaced. -/
def decodeRefs (skip : Nat) (cs : List Char) : Option (List Char) :=
  match cs with
  | [] => some []
  | c :: rest =>
    match skip with
    | k + 1 => decodeRefs k rest
    | 0 =>
      if c = '&' then
        match refAt rest with
        | some (x, n) => (decodeRefs n rest).map fun r => x :: r
        | none => if refStart rest then none else (decodeRefs 0 rest).map fun r => c :: r
      else if textOk c then (decodeRefs 0 rest).map fun r => c :: r
      else none

/-- Split before the first character that ends an attribute name: white
space, `/`, `>` or `=`. -/
def takeAttrName (cs : List Char) : List Char × List Char :=
  match cs with
  | [] => ([], [])
  | c :: rest =>
    if isTagWs c || c = '/' || c = '>' || c = '=' then ([], c :: rest)
    else ((c :: (takeAttrName rest).1), (takeAttrName rest).2)

/-- A character the tokenizer appends unchanged to an attribute name. -/
def attrNameOk (c : Char) : Bool :=
  !(c.isUpper || c = Char.ofNat 13 || c = Char.ofNat 0)

/-- The attributes of a start tag, up to and including its `>`, read from
after the tag name or after an attribute value: white space is skipped, any
other character but `>`, `/` and `=` starts an attribute name. -/
def readAttrs (fuel : Nat) (cs : List Char) : Option (List (String × String) × List Char) :=
  match fuel with
  | 0 => none
  | fuel + 1 =>
    match cs with
    | [] => none
    | c :: rest =>
      if c = '>' then some ([], rest)
      else if isTagWs c then readAttrs fuel rest
      else if c = '/' ∨ c = '=' then none
      else if (takeAttrName cs).1.all attrNameOk then
        match (takeAttrName cs).2 with
        | [] => none
        | d :: r1 =>
          if d = '>' then some ([(String.mk (takeAttrName cs).1, "")], r1)
          else if d = '=' then
            match r1 with
            | [] => none
            | q :: r2 =>
              if q = dquote then
                match (takeUntil dquote r2).2 with
                | [] => none
                | _ :: r4 =>
                  match decodeRefs 0 (takeUntil dquote r2).1 with
                  | none => none
                  | some v =>
                    match readAttrs fuel r4 with
                    | none => none
                    | some (attrs, r5) =>
                      some ((String.mk (takeAttrName cs).1, String.mk v) :: attrs, r5)
              else none
          else none
      else none

/-- A start tag after its `<`: the tag name, which white space or `>` ends,
then the attributes, no attribute name twice. -/
def readOpen (cs : List Char) : Option (String × List (String × String) × List Char) :=
  match (takeName cs).2 with
  | [] => none
  | c :: _ =>
    if c = '>' ∨ isTagWs c = true then
      match readAttrs (takeName cs).2.length (takeName cs).2 with
      | none => none
      | some (attrs, rest) =>
        if (attrs.map Prod.fst).Nodup then some (String.mk (takeName cs).1, attrs, rest)
        else none
    else none

/-- Which elements are open around the insertion point, as far as the rules
below ask: a `p`, a `button`, an `a`, and whether the current node is
an `h3`. -/
structure Ctx where
  inP : Bool
  inButton : Bool
  inA : Bool
  parentH : Bool
  deriving DecidableEq, Repr

/-- Whether a start tag `tag` is in the modelled part at this point. -/
def Ctx.allows (ctx : Ctx) (tag : String) : Bool :=
  if tag = "div" then !ctx.inP
  else if tag = "p" then !ctx.inP
  else if tag = "h3" then !ctx.inP && !ctx.parentH
  else if tag = "button" then !ctx.inButton
  else if tag = "a" then !ctx.inA
  else if tag = "i" then true
  else false

/-- The context inside an element `tag`. -/
def Ctx.enter (ctx : Ctx) (tag : String) : Ctx :=
  { inP := ctx.inP || decide (tag = "p")
    inButton := ctx.inButton || decide (tag = "button")
    inA := ctx.inA || decide (tag = "a")
    parentH := decide (tag = "h3") }

/-- The context at the start of a fragment: nothing open. -/
def Ctx.top : Ctx :=
  { inP := false, inButton := false, inA := false, parentH := false }

/-- Parse a run of sibling nodes, up to the end of the input or to the end
tag of the enclosing element; gives the nodes and the input left. -/
def parseNodes (fuel : Nat) (ctx : Ctx) (cs : List Char) : Option (Dom × List Char) :=
  match fuel with
  | 0 => none
  | fuel + 1 =>
    match cs with
    | [] => some (Dom.nil, [])
    | c :: r =>
      if c = '<' then
        match r with
        | [] => none
        | c2 :: _ =>
          if c2 = '/' then some (Dom.nil, cs)
          else
            match readOpen r with
            | none => none
            | some (tag, attrs, r1) =>
              if ctx.allows tag then
                match parseNodes fuel (ctx.enter tag) r1 with
                | none => none
                | some (ch, r2) =>
                  match dropLit ('<' :: '/' :: (tag.data ++ ['>'])) r2 with
                  | none => none
                  | some r3 =>
                    match parseNodes fuel ctx r3 with
                    | none => none
                    | some (sib, r4) => some (Dom.node tag attrs Opacity.unset ch sib, r4)
              else none
      else
        match decodeRefs 0 (takeUntil '<' cs).1 with
        | none => none
        | some txt =>
          match parseNodes fuel ctx (takeUntil '<' cs).2 with
          | none => none
          | some (sib, r2) => some (Dom.text (String.mk txt) sib, r2)

/-- The fragment parse the `innerHTML` setter performs on `html` for a
context element with tag name `contextTag`; `none` outside the modelled
part. -/
def parseFragment (contextTag : String) (html : String) : Option Dom :=
  if contextTag = "div" then
    match parseNodes (html.data.length + 1) Ctx.top html.data with
    | some (d, []) => some d
    | _ => none
  else none

/-- The function `createCarousel(containerId, slides, options)` on a page,
with `type` the value of `options.type`.  The outer `none` means that the
template string, or the container's tag, is outside the modelled part of
HTML.  Otherwise the result is an exception, or the page as
`container.innerHTML = carouselHTML` leaves it (what the constructor then does
to the mounted elements is in the instance state) with the value returned:
`none` for `null`, else the instance. -/
def createCarousel (page : Dom) (containerId : String) (slides : List SlideDesc)
    (type : JsValue) (issued : Nat) : Option (Except JsError (Dom × Option State)) :=
  match getElementById page containerId with
  | none => some (Except.ok (page, none))
  | some container =>
    match parseFragment container.1 (carouselHTML containerId slides) with
    | none => none
    | some content =>
      match construct (switchType (carouselType type))
          ((getElementById (setChildren page containerId content)
            (containerId ++ "-carousel")).map fun el => markupOf el.2) issued with
      | Except.ok s => some (Except.ok (setChildren page containerId content, some s))
      | Except.error e => some (Except.error e)

/-! ### The tree the template depicts -/

/-- An element without inline style. -/
def el (tag : String) (attrs : List (String × String)) (children siblings : Dom) : Dom :=
  Dom.node tag attrs Opacity.unset children siblings

/-- The children of an element whose content is the text `t`: one text node,
or nothing when `t` is empty. -/
def textNode (t : String) : Dom :=
  if t = "" then Dom.nil else Dom.text t Dom.nil

/-- The nodes that follow the `<p>` element inside `.slide-text`: the link
between two runs of white space, or one run when there is no link. -/
def buttonTree (slide : SlideDesc) : Dom :=
  match slide.buttonText with
  | some txt =>
    if txt = "" then Dom.text (ws 32 ++ ws 28) Dom.nil
    else
      Dom.text (ws 32)
        (el "a" [("href", jsOr slide.buttonLink "#"), ("class", "btn btn-primary")]
          (Dom.text txt Dom.nil) (Dom.text (ws 28) Dom.nil))
  | none => Dom.text (ws 32 ++ ws 28) Dom.nil

/-- The children of one `.carousel-slide` element of the template. -/
def slideInner (slide : SlideDesc) : Dom :=
  Dom.text (ws 24)
    (el "div" [("class", "slide-content")]
      (Dom.text (ws 28)
        (el "div" [("class", "slide-image")]
          (Dom.text (ws 32)
            (el "i" [("class", jsOr slide.icon "fas fa-image")] Dom.nil
              (Dom.text (ws 28) Dom.nil)))
          (Dom.text (ws 28)
            (el "div" [("class", "slide-text")]
              (Dom.text (ws 32)
                (el "h3" [] (textNode slide.title)
                  (Dom.text (ws 32)
                    (el "p" [] (textNode slide.description) (buttonTree slide)))))
              (Dom.text (ws 24) Dom.nil)))))
      (Dom.text (ws 20) Dom.nil))

/-- The children of `.carousel-track`: the slides from position `index` on,
each preceded by the white space between two tags. -/
def slidesTree (index : Nat) (slides : List SlideDesc) : Dom :=
  match slides with
  | [] => Dom.text (ws 16 ++ ws 12) Dom.nil
  | slide :: rest =>
    Dom.text (ws 16 ++ ws 20)
      (el "div" [("class", "carousel-slide " ++ (if index = 0 then "active" else ""))]
        (slideInner slide) (slidesTree (index + 1) rest))

/-- The children of the `.carousel` element of the template. -/
def carouselInner (slides : List SlideDesc) : Dom :=
  Dom.text (ws 12)
    (el "div" [("class", "carousel-track")] (slidesTree 0 slides)
      (Dom.text (ws 12)
        (el "button" [("class", "carousel-btn prev")]
          (Dom.text (ws 16)
            (el "i" [("class", "fas fa-chevron-left")] Dom.nil (Dom.text (ws 12) Dom.nil)))
          (Dom.text (ws 12)
            (el "button" [("class", "carousel-btn next")]
              (Dom.text (ws 16)
                (el "i" [("class", "fas fa-chevron-right")] Dom.nil
                  (Dom.text (ws 12) Dom.nil)))
              (Dom.text (ws 12)
                (el "div" [("class", "carousel-indicators")] Dom.nil
                  (Dom.text (ws 8) Dom.nil))))))))

/-- The nodes the template depicts: white space, the `.carousel` element with
id `<containerId>-carousel`, white space. -/
def carouselTree (containerId : String) (slides : List SlideDesc) : Dom :=
  Dom.text (ws 8)
    (el "div" [("class", "carousel"), ("id", containerId ++ "-carousel")]
      (carouselInner slides) (Dom.text (ws 4) Dom.nil))

/-- The flags of `n` slide elements of which the first is marked active and
no other is. -/
def firstActive (n : Nat) : List Slide :=
  match n with
  | 0 => []
  | m + 1 => ⟨true, Opacity.unset⟩ :: List.replicate m ⟨false, Opacity.unset⟩

/-- A string without the characters HTML reads as markup or rewrites: `<`,
`&`, the double quote, carriage return, NUL. -/
def plainString (s : String) : Bool :=
  s.data.all fun c => !(c = '<') && textOk c && attrOk c

/-- A slide descriptor whose strings are plain and whose icon does not name
the class `carousel-slide`. -/
def plainSlide (slide : SlideDesc) : Bool :=
  plainString slide.title && plainString slide.description &&
    plainString (jsOr slide.icon "fas fa-image") &&
    !(classTokens (jsOr slide.icon "fas fa-image")).contains "carousel-slide" &&
    plainString (slide.buttonText.getD "") && plainString (jsOr slide.buttonLink "#")

/-! ### Serialisation, for the proofs about the parser -/

/-- The attributes of a start tag in plain form: for each one a space, the
name, `="`, the value and `"`. -/
def renderAttrs (attrs : List (String × String)) : List Char :=
  match attrs with
  | [] => []
  | kv :: rest =>
    ' ' :: (kv.1.data ++ ('=' :: dquote :: (kv.2.data ++ (dquote :: renderAttrs rest))))

/-- The start tag of an element. -/
def openTag (tag : String) (attrs : List (String × String)) : List Char :=
  '<' :: (tag.data ++ (renderAttrs attrs ++ ['>']))

/-- The end tag of an element. -/
def closeTag (tag : String) : List Char :=
  '<' :: '/' :: (tag.data ++ ['>'])

/-- The text that depicts a run of nodes. -/
def render (d : Dom) : List Char :=
  match d with
  | Dom.nil => []
  | Dom.text t sib => t.data ++ render sib
  | Dom.node tag attrs _ ch sib =>
    openTag tag attrs ++ (render ch ++ (closeTag tag ++ render sib))

/-- Whether a run of nodes begins with a text node. -/
def Dom.isText (d : Dom) : Bool :=
  match d with
  | Dom.text _ _ => true
  | _ => false

/-- Whether the plain form keeps a list of attributes: names among `class`,
`id`, `href`, values of characters that stand for themselves. -/
def attrsOk (attrs : List (String × String)) : Bool :=
  match attrs with
  | [] => true
  | kv :: rest =>
    (decide (kv.1 = "class") || decide (kv.1 = "id") || decide (kv.1 = "href")) &&
      kv.2.data.all attrOk && attrsOk rest

/-- Whether a run of nodes, placed where `ctx` describes, is a plain tree:
text nodes non-empty, maximal and free of `<`, `&`, carriage return and NUL,
elements allowed where they stand, with attributes the plain form keeps and
without inline style. -/
def okDom (ctx : Ctx) (d : Dom) : Bool :=
  match d with
  | Dom.nil => true
  | Dom.text t sib =>
    !t.data.isEmpty && (t.data.all fun c => !(c = '<') && textOk c) && !sib.isText &&
      okDom ctx sib
  | Dom.node tag attrs op ch sib =>
    ctx.allows tag && attrsOk attrs && decide (attrs.map Prod.fst).Nodup &&
      decide (op = Opacity.unset) && okDom (ctx.enter tag) ch && okDom ctx sib

/-- The number of nodes of a run. -/
def Dom.size (d : Dom) : Nat :=
  match d with
  | Dom.nil => 0
  | Dom.text _ sib => sib.size + 1
  | Dom.node _ _ _ ch sib => ch.size + sib.size + 1

/-- A page with a heading and an empty `div` of id `hero`. -/
def demoPage : Dom :=
  Dom.node "h1" [("id", "title")] Opacity.unset (Dom.text "Welcome" Dom.nil)
    (Dom.node "div" [("id", "hero")] Opacity.unset Dom.nil Dom.nil)

/-- Two slide descriptors, the second with a button. -/
def demoSlides : List SlideDesc :=
  [⟨"One", "first", none, none, none⟩,
    ⟨"Two", "second", some "fas fa-star", some "Go", none⟩]

/-- One slide whose icon is the class name `carousel-slide`. -/
def iconSlides : List SlideDesc :=
  [⟨"One", "first", some "carousel-slide", none, none⟩]

/-- One slide whose title is markup for a further slide element. -/
def markupSlides : List SlideDesc :=
  [⟨"<div class=\"carousel-slide\">x</div>", "first", none, none, none⟩]

/-- One slide whose title and link hold character references. -/
def entitySlides : List SlideDesc :=
  [⟨"Tom &amp; Jerry", "first", none, some "Go", some "/x?a=1&amp;b=2"⟩]

/-- A page whose only element is an empty `div` with a double quote in its
id. -/
def quotePage : Dom :=
  Dom.node "div" [("id", "hero\"x")] Opacity.unset Dom.nil Dom.nil

/-! ## Field lemmas -/

theorem showSlideFade_fields (s : State) (i : Int) :
    (showSlideFade s i).currentSlide = some i ∧ (showSlideFade s i).slideCount = s.slideCount ∧
      (showSlideFade s i).variant = s.variant ∧
      (showSlideFade s i).autoPlayInterval = s.autoPlayInterval ∧
      (showSlideFade s i).intervals = s.intervals ∧
      (showSlideFade s i).listeners = s.listeners ∧
      (showSlideFade s i).progressFill = s.progressFill := by
  unfold showSlideFade
  cases jsIndex s.slides s.currentSlide <;> simp

theorem showSlide_currentSlide (s : State) (i : Int) :
    (showSlide s i).currentSlide = some i := by
  unfold showSlide
  split
  · exact (showSlideFade_fields s i).1
  · rfl

theorem showSlide_slideCount (s : State) (i : Int) :
    (showSlide s i).slideCount = s.slideCount := by
  unfold showSlide
  split
  · exact (showSlideFade_fields s i).2.1
  · rfl

theorem showSlide_variant (s : State) (i : Int) :
    (showSlide s i).variant = s.variant := by
  unfold showSlide
  split
  · exact (showSlideFade_fields s i).2.2.1
  · rfl

theorem goToSlideGuard_iff (s : State) (N : Nat) (i : Int) (hN : s.slideCount = some N) :
    goToSlideGuard s (some i) = true ↔
      (0 ≤ i ∧ i < (N : Int) ∧ s.currentSlide ≠ some i) := by
  simp [goToSlideGuard, hN, and_assoc]

theorem animateProgress_currentSlide (s : State) :
    (animateProgress s).currentSlide = s.currentSlide := by
  unfold animateProgress
  split <;> rfl

theorem animateProgress_slideCount (s : State) :
    (animateProgress s).slideCount = s.slideCount := by
  unfold animateProgress
  split <;> rfl

theorem animateProgress_variant (s : State) :
    (animateProgress s).variant = s.variant := by
  unfold animateProgress
  split <;> rfl

theorem goToSlideBase_currentSlide (s : State) (i : Int) :
    (goToSlideBase s (some i)).currentSlide =
      if goToSlideGuard s (some i) then some i else s.currentSlide := by
  unfold goToSlideBase
  simp only []
  split
  · exact showSlide_currentSlide s i
  · rfl

theorem goToSlideBase_slideCount (s : State) (k : Option Int) :
    (goToSlideBase s k).slideCount = s.slideCount := by
  unfold goToSlideBase
  split
  · split
    · exact showSlide_slideCount _ _
    · rfl
  · rfl

theorem goToSlideBase_variant (s : State) (k : Option Int) :
    (goToSlideBase s k).variant = s.variant := by
  unfold goToSlideBase
  split
  · split
    · exact showSlide_variant _ _
    · rfl
  · rfl

theorem goToSlide_currentSlide (s : State) (i : Int) :
    (goToSlide s (some i)).currentSlide =
      if goToSlideGuard s (some i) then some i else s.currentSlide := by
  unfold goToSlide
  split
  · simp only []
    split
    · rw [animateProgress_currentSlide, goToSlideBase_currentSlide]
    · exact goToSlideBase_currentSlide s i
  · exact goToSlideBase_currentSlide s i

theorem goToSlide_none (s : State) (h : s.autoPlayInterval = none) :
    goToSlide s none = s := by
  unfold goToSlide goToSlideBase
  split <;> simp [h]

theorem goToSlide_none_currentSlide (s : State) :
    (goToSlide s none).currentSlide = s.currentSlide := by
  unfold goToSlide goToSlideBase
  split
  · simp only []
    split
    · rw [animateProgress_currentSlide]
    · rfl
  · rfl

theorem goToSlide_slideCount (s : State) (k : Option Int) :
    (goToSlide s k).slideCount = s.slideCount := by
  unfold goToSlide
  split
  · simp only []
    split
    · rw [animateProgress_slideCount, goToSlideBase_slideCount]
    · exact goToSlideBase_slideCount s k
  · exact goToSlideBase_slideCount s k

theorem goToSlide_variant (s : State) (k : Option Int) :
    (goToSlide s k).variant = s.variant := by
  unfold goToSlide
  split
  · simp only []
    split
    · rw [animateProgress_variant, goToSlideBase_variant]
    · exact goToSlideBase_variant s k
  · exact goToSlideBase_variant s k

/-- With `N ≥ 1` slides and the current index `c` in range, `nextSlide` asks
for the index `(c + 1) mod N`. -/
theorem nextIndex_eq (s : State) (N : Nat) (c : Int) (hN : s.slideCount = some N)
    (hc : s.currentSlide = some c) (hpos : 1 ≤ N) (h0 : 0 ≤ c) :
    jsMod (jsAdd s.currentSlide (some 1)) (slideCountNum s) = some ((c + 1) % (N : Int)) := by
  have hN0 : (N : Int) ≠ 0 := by omega
  simp only [jsMod, jsAdd, slideCountNum, hN, hc, Option.map_some', Int.ofNat_eq_coe]
  rw [if_neg hN0, Int.tmod_eq_emod (by omega) (by omega)]

/-- With `N ≥ 1` slides and the current index `c` in range, `previousSlide`
asks for the index `(c - 1 + N) mod N`. -/
theorem prevIndex_eq (s : State) (N : Nat) (c : Int) (hN : s.slideCount = some N)
    (hc : s.currentSlide = some c) (hpos : 1 ≤ N) (h0 : 0 ≤ c) :
    jsMod (jsAdd (jsSub s.currentSlide (some 1)) (slideCountNum s)) (slideCountNum s) =
      some ((c - 1 + (N : Int)) % (N : Int)) := by
  have hN0 : (N : Int) ≠ 0 := by omega
  simp only [jsMod, jsAdd, jsSub, slideCountNum, hN, hc, Option.map_some', Int.ofNat_eq_coe]
  rw [if_neg hN0, Int.tmod_eq_emod (by omega) (by omega)]

/-- Asking for an index `k` in range makes `k` the current index, whether or
not the guard lets the call through. -/
theorem goToSlide_inRange (s : State) (N : Nat) (k : Int) (hN : s.slideCount = some N)
    (h0 : 0 ≤ k) (h1 : k < (N : Int)) : (goToSlide s (some k)).currentSlide = some k := by
  rw [goToSlide_currentSlide]
  by_cases hg : goToSlideGuard s (some k) = true
  · simp [hg]
  · have := (goToSlideGuard_iff s N k hN).not.mp hg
    have hk : s.currentSlide = some k := by
      by_contra hne
      exact this ⟨h0, h1, hne⟩
    simp [hg, hk]

theorem nextSlide_currentSlide (s : State) (N : Nat) (c : Int) (hN : s.slideCount = some N)
    (hc : s.currentSlide = some c) (hpos : 1 ≤ N) (h0 : 0 ≤ c) :
    (nextSlide s).currentSlide = some ((c + 1) % (N : Int)) := by
  unfold nextSlide
  rw [nextIndex_eq s N c hN hc hpos h0]
  exact goToSlide_inRange s N _ hN (Int.emod_nonneg _ (by omega))
    (Int.emod_lt_of_pos _ (by omega))

theorem previousSlide_currentSlide (s : State) (N : Nat) (c : Int)
    (hN : s.slideCount = some N) (hc : s.currentSlide = some c) (hpos : 1 ≤ N) (h0 : 0 ≤ c) :
    (previousSlide s).currentSlide = some ((c - 1 + (N : Int)) % (N : Int)) := by
  unfold previousSlide
  rw [prevIndex_eq s N c hN hc hpos h0]
  exact goToSlide_inRange s N _ hN (Int.emod_nonneg _ (by omega))
    (Int.emod_lt_of_pos _ (by omega))

theorem nextSlide_slideCount (s : State) : (nextSlide s).slideCount = s.slideCount :=
  goToSlide_slideCount s _

theorem previousSlide_slideCount (s : State) : (previousSlide s).slideCount = s.slideCount :=
  goToSlide_slideCount s _

/-- With zero slides both `nextSlide` and `previousSlide` compute `NaN` and
leave the current index alone. -/
theorem nav_zero_slides (s : State) (hN : s.slideCount = some 0) :
    (nextSlide s).currentSlide = s.currentSlide ∧
      (previousSlide s).currentSlide = s.currentSlide := by
  have h1 : ∀ a, jsMod a (slideCountNum s) = none := by
    intro a
    cases a <;> simp [jsMod, slideCountNum, hN]
  unfold nextSlide previousSlide
  rw [h1, h1]
  exact ⟨goToSlide_none_currentSlide s, goToSlide_none_currentSlide s⟩

theorem iterate_nextSlide_currentSlide (N : Nat) (hpos : 1 ≤ N) (k : Nat) :
    ∀ (s : State) (c : Int), s.slideCount = some N → s.currentSlide = some c → 0 ≤ c →
      c < (N : Int) → (nextSlide^[k] s).currentSlide = some ((c + k) % (N : Int)) := by
  induction k with
  | zero =>
    intro s c _ hc h0 h1
    simp [hc, Int.emod_eq_of_lt h0 h1]
  | succ k ih =>
    intro s c hN hc h0 _
    rw [Function.iterate_succ_apply]
    have hs := nextSlide_currentSlide s N c hN hc hpos h0
    have hn : (nextSlide s).slideCount = some N := by rw [nextSlide_slideCount, hN]
    rw [ih (nextSlide s) _ hn hs (Int.emod_nonneg _ (by omega)) (Int.emod_lt_of_pos _ (by omega))]
    congr 1
    rw [Int.emod_add_cancel_right _ |>.mpr (Int.emod_emod_of_dvd _ (dvd_refl _))]
    push_cast
    ring_nf

/-! ## Navigation -/

/-- C1. On a `CarouselManager` with `N` slides, `goToSlide(index)` for an
integer `index` changes the state exactly when `0 ≤ index < N` and `index` is
not the current index; then the current index becomes `index`; otherwise
nothing at all changes (current index, active markings of slides and
indicators, auto-play handle and every other field). -/
theorem goToSlide_changes_iff (s : State) (N : Nat) (index : Int)
    (hv : s.variant = Variant.base) (hN : s.slideCount = some N) :
    (goToSlide s (some index) ≠ s ↔
        (0 ≤ index ∧ index < (N : Int) ∧ s.currentSlide ≠ some index)) ∧
      ((0 ≤ index ∧ index < (N : Int) ∧ s.currentSlide ≠ some index) →
        (goToSlide s (some index)).currentSlide = some index) ∧
      (¬ (0 ≤ index ∧ index < (N : Int) ∧ s.currentSlide ≠ some index) →
        (goToSlide s (some index)).currentSlide = s.currentSlide ∧
        (goToSlide s (some index)).slides = s.slides ∧
        (goToSlide s (some index)).indicators = s.indicators ∧
        (goToSlide s (some index)).autoPlayInterval = s.autoPlayInterval ∧
        (goToSlide s (some index)).intervals = s.intervals ∧
        goToSlide s (some index) = s) := by
  have hg := goToSlideGuard_iff s N index hN
  have hcur := goToSlide_currentSlide s index
  have hno : ¬ (0 ≤ index ∧ index < (N : Int) ∧ s.currentSlide ≠ some index) →
      goToSlide s (some index) = s := by
    intro h
    have hf : goToSlideGuard s (some index) = false := by
      rw [← Bool.not_eq_true]
      exact hg.not.mpr h
    simp [goToSlide, goToSlideBase, hv, hf]
  refine ⟨⟨?_, ?_⟩, ?_, ?_⟩
  · intro hne
    by_contra h
    exact hne (hno h)
  · intro h heq
    rw [hg.mpr h, heq] at hcur
    exact h.2.2 (by simpa using hcur)
  · intro h
    rw [hcur, hg.mpr h]
    rfl
  · intro h
    rw [hno h]
    exact ⟨rfl, rfl, rfl, rfl, rfl, rfl⟩

/-- Witness for C1: the three-slide default carousel and the index 2. -/
theorem goToSlide_changes_iff_witness :
    (goToSlide demoBase (some 2) ≠ demoBase ↔
        ((0 : Int) ≤ 2 ∧ (2 : Int) < ((3 : Nat) : Int) ∧
          demoBase.currentSlide ≠ some 2)) ∧
      (((0 : Int) ≤ 2 ∧ (2 : Int) < ((3 : Nat) : Int) ∧
          demoBase.currentSlide ≠ some 2) →
        (goToSlide demoBase (some 2)).currentSlide = some 2) ∧
      (¬ ((0 : Int) ≤ 2 ∧ (2 : Int) < ((3 : Nat) : Int) ∧
          demoBase.currentSlide ≠ some 2) →
        (goToSlide demoBase (some 2)).currentSlide = demoBase.currentSlide ∧
        (goToSlide demoBase (some 2)).slides = demoBase.slides ∧
        (goToSlide demoBase (some 2)).indicators = demoBase.indicators ∧
        (goToSlide demoBase (some 2)).autoPlayInterval = demoBase.autoPlayInterval ∧
        (goToSlide demoBase (some 2)).intervals = demoBase.intervals ∧
        goToSlide demoBase (some 2) = demoBase) :=
  goToSlide_changes_iff demoBase 3 2 (by decide) (by decide)

/-- C2. For `N ≥ 1` slides and a current index `i` with `0 ≤ i < N`, one
`nextSlide()` moves the current index to `(i + 1) mod N`, after `k` calls it
is `(i + k) mod N`, and after `N` calls it is `i` again (for `N = 1` every
call leaves it at `0`). -/
theorem nextSlide_cycle (s : State) (N : Nat) (i : Int) (hpos : 1 ≤ N)
    (hN : s.slideCount = some N) (hc : s.currentSlide = some i) (h0 : 0 ≤ i)
    (h1 : i < (N : Int)) :
    (nextSlide s).currentSlide = some ((i + 1) % (N : Int)) ∧
      (∀ k : Nat, (nextSlide^[k] s).currentSlide = some ((i + k) % (N : Int))) ∧
      (∀ k : Nat, (nextSlide^[k + 1] s).slideCount = some N ∧
        ∃ c : Int, (nextSlide^[k] s).currentSlide = some c ∧ 0 ≤ c ∧ c < (N : Int) ∧
          (nextSlide^[k + 1] s).currentSlide = some ((c + 1) % (N : Int))) ∧
      (nextSlide^[N] s).currentSlide = some i := by
  have hit := fun k => iterate_nextSlide_currentSlide N hpos k s i hN hc h0 h1
  have hcount : ∀ k : Nat, (nextSlide^[k] s).slideCount = some N := by
    intro k
    induction k with
    | zero => exact hN
    | succ k ih => rw [Function.iterate_succ_apply', nextSlide_slideCount, ih]
  refine ⟨nextSlide_currentSlide s N i hN hc hpos h0, hit, ?_, ?_⟩
  · intro k
    refine ⟨hcount (k + 1), (i + k) % (N : Int), hit k, Int.emod_nonneg _ (by omega),
      Int.emod_lt_of_pos _ (by omega), ?_⟩
    rw [Function.iterate_succ_apply']
    exact nextSlide_currentSlide _ N _ (hcount k) (hit k) hpos (Int.emod_nonneg _ (by omega))
  · rw [hit N]
    simp [Int.emod_eq_of_lt h0 h1]

/-- Witness for C2: the three-slide default carousel, starting at index 0. -/
theorem nextSlide_cycle_witness :
    (nextSlide demoBase).currentSlide = some (((0 : Int) + 1) % ((3 : Nat) : Int)) ∧
      (∀ k : Nat, (nextSlide^[k] demoBase).currentSlide =
        some (((0 : Int) + k) % ((3 : Nat) : Int))) ∧
      (∀ k : Nat, (nextSlide^[k + 1] demoBase).slideCount = some 3 ∧
        ∃ c : Int, (nextSlide^[k] demoBase).currentSlide = some c ∧ 0 ≤ c ∧
          c < ((3 : Nat) : Int) ∧
          (nextSlide^[k + 1] demoBase).currentSlide = some ((c + 1) % ((3 : Nat) : Int))) ∧
      (nextSlide^[3] demoBase).currentSlide = some 0 :=
  nextSlide_cycle demoBase 3 0 (by decide) (by decide) (by decide) (by decide) (by decide)

/-- C3. With `N ≥ 0` slides and the current index in range (with zero slides:
whatever it is), `previousSlide()` followed by `nextSlide()` restores the
current index, and so does `nextSlide()` followed by `previousSlide()`. -/
theorem previous_next_inverse (s : State) (N : Nat) (c : Int) (hN : s.slideCount = some N)
    (hc : s.currentSlide = some c) (hr : N = 0 ∨ (0 ≤ c ∧ c < (N : Int))) :
    (nextSlide (previousSlide s)).currentSlide = some c ∧
      (previousSlide (nextSlide s)).currentSlide = some c := by
  rcases Nat.eq_zero_or_pos N with hz | hpos
  · subst hz
    have hp := nav_zero_slides s hN
    have hn1 := nav_zero_slides (previousSlide s) (by rw [previousSlide_slideCount, hN])
    have hn2 := nav_zero_slides (nextSlide s) (by rw [nextSlide_slideCount, hN])
    exact ⟨by rw [hn1.1, hp.2, hc], by rw [hn2.2, hp.1, hc]⟩
  · have hin : 0 ≤ c ∧ c < (N : Int) := by
      rcases hr with h | h
      · omega
      · exact h
    have hNp : (0 : Int) < N := by omega
    have hp := previousSlide_currentSlide s N c hN hc hpos hin.1
    have hn := nextSlide_currentSlide s N c hN hc hpos hin.1
    have hpn := nextSlide_currentSlide (previousSlide s) N _
      (by rw [previousSlide_slideCount, hN]) hp hpos (Int.emod_nonneg _ (by omega))
    have hnp := previousSlide_currentSlide (nextSlide s) N _
      (by rw [nextSlide_slideCount, hN]) hn hpos (Int.emod_nonneg _ (by omega))
    refine ⟨?_, ?_⟩
    · rw [hpn]
      congr 1
      rw [Int.emod_add_cancel_right _ |>.mpr (Int.emod_emod_of_dvd _ (dvd_refl _))]
      have : c - 1 + (N : Int) + 1 = c + (N : Int) := by ring
      rw [this, Int.add_emod_self, Int.emod_eq_of_lt hin.1 hin.2]
    · rw [hnp]
      congr 1
      have h2 : (c + 1) % (N : Int) - 1 + (N : Int) = (c + 1) % (N : Int) + ((N : Int) - 1) := by
        ring
      rw [h2, Int.emod_add_cancel_right _ |>.mpr (Int.emod_emod_of_dvd _ (dvd_refl _))]
      have : c + 1 + ((N : Int) - 1) = c + (N : Int) := by ring
      rw [this, Int.add_emod_self, Int.emod_eq_of_lt hin.1 hin.2]

/-- Witness for C3: the three-slide default carousel at index 0, where
`previousSlide()` wraps to the last slide. -/
theorem previous_next_inverse_witness :
    (nextSlide (previousSlide demoBase)).currentSlide = some 0 ∧
      (previousSlide (nextSlide demoBase)).currentSlide = some 0 :=
  previous_next_inverse demoBase 3 0 (by decide) (by decide) (Or.inr (by decide))

/-! ## Auto-play timers -/

theorem pauseAutoPlay_inv (s : State) (h : TimerInv s) :
    (pauseAutoPlay s).intervals = [] ∧ (pauseAutoPlay s).autoPlayInterval = none := by
  unfold TimerInv at h
  unfold pauseAutoPlay
  cases ha : s.autoPlayInterval with
  | none =>
    rw [ha] at h
    exact ⟨by simpa using h, ha⟩
  | some x =>
    rw [ha] at h
    simp only [Option.toList] at h
    match hi : s.intervals, h with
    | [t0], h =>
      simp only [List.map_cons, List.map_nil, List.cons.injEq, and_true] at h
      simp [h]

theorem startAutoPlayBase_inv (s : State) (h : TimerInv s) :
    (startAutoPlayBase s).intervals = [⟨s.issued + 1, s.autoPlayDelay⟩] ∧
      (startAutoPlayBase s).autoPlayInterval = some (s.issued + 1) := by
  have hp := pauseAutoPlay_inv s h
  have h1 : (pauseAutoPlay s).issued = s.issued := by
    unfold pauseAutoPlay
    split <;> rfl
  have h2 : (pauseAutoPlay s).autoPlayDelay = s.autoPlayDelay := by
    unfold pauseAutoPlay
    split <;> rfl
  unfold startAutoPlayBase
  simp [hp.1, h1, h2]

theorem animateProgress_timers (s : State) :
    (animateProgress s).intervals = s.intervals ∧
      (animateProgress s).autoPlayInterval = s.autoPlayInterval := by
  unfold animateProgress
  split <;> exact ⟨rfl, rfl⟩

theorem startAutoPlay_inv (s : State) (h : TimerInv s) :
    (startAutoPlay s).intervals = [⟨s.issued + 1, s.autoPlayDelay⟩] ∧
      (startAutoPlay s).autoPlayInterval = some (s.issued + 1) := by
  have hb := startAutoPlayBase_inv s h
  unfold startAutoPlay
  split
  · rw [(animateProgress_timers _).1, (animateProgress_timers _).2]
    exact hb
  · exact hb

theorem TimerInv_pause (s : State) (h : TimerInv s) : TimerInv (pauseAutoPlay s) := by
  have hp := pauseAutoPlay_inv s h
  simp [TimerInv, hp.1, hp.2]

theorem TimerInv_start (s : State) (h : TimerInv s) : TimerInv (startAutoPlay s) := by
  have hp := startAutoPlay_inv s h
  simp [TimerInv, hp.1, hp.2]

theorem TimerInv_toggle (s : State) (h : TimerInv s) : TimerInv (toggleAutoPlay s) := by
  unfold toggleAutoPlay
  split
  · exact TimerInv_pause s h
  · exact TimerInv_start s h

/-- A property kept by a handler is kept by running it once per registration. -/
theorem foldl_handler_inv {α : Type} (P : State → Prop) (f : State → State)
    (hf : ∀ s, P s → P (f s)) (ls : List α) :
    ∀ s, P s → P (ls.foldl (fun st _ => f st) s) := by
  induction ls with
  | nil => intro s hs; exact hs
  | cons _ tl ih => intro s hs; exact ih _ (hf s hs)

theorem TimerInv_step (s : State) (a : AutoPlayStep) (h : TimerInv s) :
    TimerInv (AutoPlayStep.run s a) := by
  cases a with
  | start => exact TimerInv_start s h
  | pause => exact TimerInv_pause s h
  | toggle => exact TimerInv_toggle s h
  | pointerEnter =>
    exact foldl_handler_inv TimerInv (fun st => handle st Event.mouseenter)
      (fun st hst => TimerInv_pause st hst) _ s h
  | pointerLeave =>
    exact foldl_handler_inv TimerInv (fun st => handle st Event.mouseleave)
      (fun st hst => TimerInv_start st hst) _ s h

theorem TimerInv_steps (steps : List AutoPlayStep) :
    ∀ s, TimerInv s → TimerInv (steps.foldl AutoPlayStep.run s) := by
  induction steps with
  | nil => intro s hs; exact hs
  | cons a tl ih => intro s hs; exact ih _ (TimerInv_step s a hs)

theorem showSlide_timers (s : State) (i : Int) :
    (showSlide s i).intervals = s.intervals ∧
      (showSlide s i).autoPlayInterval = s.autoPlayInterval := by
  unfold showSlide
  split
  · exact ⟨(showSlideFade_fields s i).2.2.2.2.1, (showSlideFade_fields s i).2.2.2.1⟩
  · exact ⟨rfl, rfl⟩

theorem createIndicators_timers (s : State) :
    (createIndicators s).intervals = s.intervals ∧
      (createIndicators s).autoPlayInterval = s.autoPlayInterval := by
  unfold createIndicators
  split <;> exact ⟨rfl, rfl⟩

theorem TimerInv_init (s : State) (h : TimerInv s) : TimerInv (init s) := by
  unfold init
  split
  · exact h
  · have h1 : TimerInv (bindEvents (createIndicators s)) := by
      have hc := createIndicators_timers s
      unfold TimerInv at h ⊢
      show (createIndicators s).intervals.map Interval.handle =
        (createIndicators s).autoPlayInterval.toList
      rw [hc.1, hc.2]
      exact h
    have h2 := TimerInv_start _ h1
    have hs := showSlide_timers (startAutoPlay (bindEvents (createIndicators s))) 0
    unfold TimerInv at h2 ⊢
    rw [hs.1, hs.2]
    exact h2

theorem TimerInv_constructBase (v : Variant) (el : Option Markup) (issued : Nat) :
    TimerInv (constructBase v el issued) := by
  unfold constructBase
  cases el with
  | none => simp [TimerInv, blank]
  | some m =>
    apply TimerInv_init
    simp [TimerInv, blank]

theorem TimerInv_construct (v : Variant) (el : Option Markup) (issued : Nat) (s0 : State)
    (h : construct v el issued = Except.ok s0) : TimerInv s0 := by
  have hb := TimerInv_constructBase v el issued
  unfold construct at h
  split at h
  · unfold createProgressBar at h
    split at h
    · injection h with h
      subst h
      exact hb
    · cases h
  · injection h with h
    subst h
    exact hb

/-- C4. For an instance of any of the three classes, after every sequence of
`startAutoPlay()`, `pauseAutoPlay()`, `toggleAutoPlay()`, pointer-enter and
pointer-leave: at most one repeating timer of the instance is live; one is
live exactly when `autoPlayInterval` is non-null, and it is the one that
field names; and two `startAutoPlay()` calls in a row leave exactly one live
timer, so that one elapsed period runs `nextSlide()` once. -/
theorem autoPlay_single_timer (v : Variant) (el : Option Markup) (issued : Nat) (s0 : State)
    (h : construct v el issued = Except.ok s0) (steps : List AutoPlayStep) :
    (steps.foldl AutoPlayStep.run s0).intervals.length ≤ 1 ∧
      ((steps.foldl AutoPlayStep.run s0).intervals ≠ [] ↔
        (steps.foldl AutoPlayStep.run s0).autoPlayInterval ≠ none) ∧
      (steps.foldl AutoPlayStep.run s0).intervals.map Interval.handle =
        (steps.foldl AutoPlayStep.run s0).autoPlayInterval.toList ∧
      (startAutoPlay (startAutoPlay (steps.foldl AutoPlayStep.run s0))).intervals.length = 1 ∧
      (startAutoPlay (startAutoPlay (steps.foldl AutoPlayStep.run s0))).autoPlayInterval ≠
        none ∧
      fireIntervals (startAutoPlay (startAutoPlay (steps.foldl AutoPlayStep.run s0))) =
        nextSlide (startAutoPlay (startAutoPlay (steps.foldl AutoPlayStep.run s0))) := by
  have hinv := TimerInv_steps steps s0 (TimerInv_construct v el issued s0 h)
  generalize steps.foldl AutoPlayStep.run s0 = s at hinv
  have h2 := startAutoPlay_inv _ (TimerInv_start s hinv)
  have hlen : s.intervals.length = s.autoPlayInterval.toList.length := by
    rw [← hinv, List.length_map]
  refine ⟨?_, ?_, hinv, ?_, ?_, ?_⟩
  · rw [hlen]
    cases s.autoPlayInterval <;> simp [Option.toList]
  · rw [← List.length_pos, hlen]
    cases s.autoPlayInterval <;> simp [Option.toList]
  · rw [h2.1]
    rfl
  · rw [h2.2]
    simp
  · unfold fireIntervals
    rw [h2.1]
    rfl

/-- Witness for C4: a default carousel on three slides, hovered, toggled and
started. -/
theorem autoPlay_single_timer_witness :
    ([AutoPlayStep.pointerEnter, AutoPlayStep.toggle, AutoPlayStep.start].foldl
        AutoPlayStep.run demoBase).intervals.length ≤ 1 ∧
      (([AutoPlayStep.pointerEnter, AutoPlayStep.toggle, AutoPlayStep.start].foldl
        AutoPlayStep.run demoBase).intervals ≠ [] ↔
        ([AutoPlayStep.pointerEnter, AutoPlayStep.toggle, AutoPlayStep.start].foldl
        AutoPlayStep.run demoBase).autoPlayInterval ≠ none) ∧
      ([AutoPlayStep.pointerEnter, AutoPlayStep.toggle, AutoPlayStep.start].foldl
        AutoPlayStep.run demoBase).intervals.map Interval.handle =
        ([AutoPlayStep.pointerEnter, AutoPlayStep.toggle, AutoPlayStep.start].foldl
        AutoPlayStep.run demoBase).autoPlayInterval.toList ∧
      (startAutoPlay (startAutoPlay ([AutoPlayStep.pointerEnter, AutoPlayStep.toggle,
        AutoPlayStep.start].foldl AutoPlayStep.run demoBase))).intervals.length = 1 ∧
      (startAutoPlay (startAutoPlay ([AutoPlayStep.pointerEnter, AutoPlayStep.toggle,
        AutoPlayStep.start].foldl AutoPlayStep.run demoBase))).autoPlayInterval ≠ none ∧
      fireIntervals (startAutoPlay (startAutoPlay ([AutoPlayStep.pointerEnter,
        AutoPlayStep.toggle, AutoPlayStep.start].foldl AutoPlayStep.run demoBase))) =
        nextSlide (startAutoPlay (startAutoPlay ([AutoPlayStep.pointerEnter,
        AutoPlayStep.toggle, AutoPlayStep.start].foldl AutoPlayStep.run demoBase))) :=
  autoPlay_single_timer Variant.base (some demoMarkup) 0 demoBase rfl
    [AutoPlayStep.pointerEnter, AutoPlayStep.toggle, AutoPlayStep.start]

/-! ## Active markings of the default carousel -/

theorem activeOnlyAt_slides (l : List Slide) (c : Nat) (hc : c < l.length) :
    ActiveOnlyAt
      ((l.mapIdx fun i sl => { sl with active := decide ((i : Int) = (c : Int)) }).map
        Slide.active) c := by
  refine ⟨by simpa using hc, ?_⟩
  intro i hi
  have hi2 : i < l.length := by simpa using hi
  simp [List.getElem?_eq_getElem hi2]

theorem activeOnlyAt_flags (l : List Bool) (c : Nat) (hc : c < l.length) :
    ActiveOnlyAt (l.mapIdx fun i _ => decide ((i : Int) = (c : Int))) c := by
  refine ⟨by simpa using hc, ?_⟩
  intro i hi
  have hi2 : i < l.length := by simpa using hi
  simp [List.getElem?_eq_getElem hi2]

theorem BaseInv_showSlideBase (N : Nat) (b : Bool) (s : State) (c : Nat) (hc : c < N)
    (hv : s.variant = Variant.base) (hN : s.slideCount = some N) (hl : s.slides.length = N)
    (hi : s.indicators.isSome = b)
    (hil : ∀ inds, s.indicators = some inds → inds.length = N) :
    BaseInv N b (showSlideBase s (c : Int)) := by
  refine ⟨hv, hN, by simp [showSlideBase, hl], ?_, c, rfl, ?_, ?_⟩
  · rw [← hi]
    simp [showSlideBase, updateIndicators]
  · exact activeOnlyAt_slides s.slides c (by omega)
  · intro inds hinds
    simp only [showSlideBase, updateIndicators] at hinds
    cases h0 : s.indicators with
    | none => simp [h0] at hinds
    | some old =>
      simp only [h0, Option.map_some', Option.some.injEq] at hinds
      have hlen := hil old h0
      subst hinds
      exact ⟨by simpa using hlen, activeOnlyAt_flags old c (by omega)⟩

theorem BaseInv_goToSlide (N : Nat) (b : Bool) (s : State) (k : Option Int)
    (h : BaseInv N b s) : BaseInv N b (goToSlide s k) := by
  obtain ⟨hv, hN, hl, hi, c, hc, hs, hind⟩ := h
  cases k with
  | none =>
    have : goToSlide s none = s := by simp [goToSlide, goToSlideBase, hv]
    rw [this]
    exact ⟨hv, hN, hl, hi, c, hc, hs, hind⟩
  | some i =>
    by_cases hg : goToSlideGuard s (some i) = true
    · have hr := (goToSlideGuard_iff s N i hN).mp hg
      have : goToSlide s (some i) = showSlideBase s i := by
        simp [goToSlide, goToSlideBase, showSlide, hv, hg]
      rw [this]
      obtain ⟨n, rfl⟩ := Int.eq_ofNat_of_zero_le hr.1
      exact BaseInv_showSlideBase N b s n (by omega) hv hN hl hi (fun inds h => (hind inds h).1)
    · have : goToSlide s (some i) = s := by
        simp [goToSlide, goToSlideBase, hv, hg]
      rw [this]
      exact ⟨hv, hN, hl, hi, c, hc, hs, hind⟩

theorem BaseInv_run (N : Nat) (b : Bool) (s : State) (c : NavCall) (h : BaseInv N b s) :
    BaseInv N b (NavCall.run s c) := by
  cases c with
  | next => exact BaseInv_goToSlide N b s _ h
  | previous => exact BaseInv_goToSlide N b s _ h
  | goTo index => exact BaseInv_goToSlide N b s _ h

theorem BaseInv_calls (N : Nat) (b : Bool) (calls : List NavCall) :
    ∀ s, BaseInv N b s → BaseInv N b (calls.foldl NavCall.run s) := by
  induction calls with
  | nil => intro s hs; exact hs
  | cons c tl ih => intro s hs; exact ih _ (BaseInv_run N b s c hs)

/-- The default constructor on a container with at least one slide, spelled
out: `init` runs all four steps and ends in the base `showSlide(0)`. -/
theorem constructBase_base_eq (m : Markup) (issued : Nat) (hN : 1 ≤ m.slides.length) :
    constructBase Variant.base (some m) issued =
      showSlideBase (startAutoPlayBase (bindEvents (createIndicators
        { blank Variant.base issued with
          carousel := true
          slides := m.slides
          prevBtn := m.prevBtn
          nextBtn := m.nextBtn
          indicators := m.indicators
          currentSlide := some 0
          slideCount := some m.slides.length
          autoPlayInterval := none
          autoPlayDelay := some 5000 }))) 0 := by
  have hne : m.slides.length ≠ 0 := by omega
  have hv : ∀ s : State, (bindEvents (createIndicators s)).variant = s.variant := by
    intro s
    unfold createIndicators
    split <;> rfl
  have hv2 : ∀ s : State, (startAutoPlayBase s).variant = s.variant := by
    intro s
    unfold startAutoPlayBase pauseAutoPlay
    split <;> rfl
  simp only [constructBase, init, Option.some.injEq, hne, if_false]
  unfold showSlide startAutoPlay
  rw [hv]
  simp only [blank]
  rw [hv2, hv]

theorem constructBase_base_fields (m : Markup) (issued : Nat) (hN : 1 ≤ m.slides.length) :
    BaseInv m.slides.length m.indicators.isSome (constructBase Variant.base (some m) issued) ∧
      (constructBase Variant.base (some m) issued).currentSlide = some 0 ∧
      (constructBase Variant.base (some m) issued).autoPlayInterval = some (issued + 1) ∧
      (constructBase Variant.base (some m) issued).intervals = [⟨issued + 1, some 5000⟩] ∧
      (constructBase Variant.base (some m) issued).listeners =
        (if m.indicators.isSome then
          (List.range m.slides.length).map Listener.indicatorClick else []) ++
        (if m.prevBtn then [Listener.prevClick] else []) ++
        (if m.nextBtn then [Listener.nextClick] else []) ++
        [Listener.mouseenter, Listener.mouseleave, Listener.touchstart, Listener.touchend,
          Listener.keydown] := by
  rw [constructBase_base_eq m issued hN]
  refine ⟨?_, rfl, ?_, ?_, ?_⟩
  · have h0 : (0 : Int) = ((0 : Nat) : Int) := rfl
    rw [h0]
    apply BaseInv_showSlideBase _ _ _ 0 (by omega)
    · cases hm : m.indicators <;>
        simp [startAutoPlayBase, pauseAutoPlay, bindEvents, createIndicators, blank, hm]
    · cases hm : m.indicators <;>
        simp [startAutoPlayBase, pauseAutoPlay, bindEvents, createIndicators, blank, hm]
    · cases hm : m.indicators <;>
        simp [startAutoPlayBase, pauseAutoPlay, bindEvents, createIndicators, blank, hm]
    · cases hm : m.indicators <;>
        simp [startAutoPlayBase, pauseAutoPlay, bindEvents, createIndicators, blank, hm]
    · cases hm : m.indicators <;>
        simp [startAutoPlayBase, pauseAutoPlay, bindEvents, createIndicators, blank, hm]
  · cases hm : m.indicators <;>
      simp [showSlideBase, startAutoPlayBase, pauseAutoPlay, bindEvents, createIndicators, blank,
        hm]
  · cases hm : m.indicators <;>
      simp [showSlideBase, startAutoPlayBase, pauseAutoPlay, bindEvents, createIndicators, blank,
        hm]
  · cases hm : m.indicators <;>
      simp [showSlideBase, startAutoPlayBase, pauseAutoPlay, bindEvents, createIndicators, blank,
        hm]

/-- Running the handler `goToSlide(i)` once or more, for `i` in range, leaves
`i` the current index. -/
theorem foldl_goToSlide_currentSlide {α : Type} (N : Nat) (i : Int) (h0 : 0 ≤ i)
    (h1 : i < (N : Int)) (ls : List α) :
    ∀ s : State, s.slideCount = some N → (ls = [] → s.currentSlide = some i) →
      (ls.foldl (fun st _ => goToSlide st (some i)) s).currentSlide = some i := by
  induction ls with
  | nil => intro s _ hc; exact hc rfl
  | cons _ tl ih =>
    intro s hN _
    exact ih _ (by rw [goToSlide_slideCount, hN]) (fun _ => goToSlide_inRange s N i hN h0 h1)

/-- C5, as the claim states it, fails where the markup has no indicator
container: a default carousel on one slide is built (current index 0,
auto-play running), but `createIndicators` returns at once, so no indicator
exists and no indicator listener is registered. -/
theorem base_without_container_has_no_indicator :
    bareBase.slideCount = some 1 ∧ bareBase.currentSlide = some 0 ∧
      bareBase.autoPlayInterval = some 1 ∧ bareBase.indicators = none ∧
      ¬ (∃ inds : List Bool, bareBase.indicators = some inds ∧ inds.length = 1) ∧
      bareBase.listeners =
        [Listener.mouseenter, Listener.mouseleave, Listener.touchstart, Listener.touchend,
          Listener.keydown] := by
  refine ⟨by decide, by decide, by decide, by decide, ?_, by decide⟩
  rintro ⟨inds, h, _⟩
  have hn : bareBase.indicators = none := by decide
  rw [hn] at h
  cases h

/-- C5 (amended). A default carousel built on `N ≥ 1` slides, whatever the
markup marked active: right after construction the current index is 0 and
auto-play is running (one live timer); when the markup has an indicator
container, one indicator per slide exists, the `i`-th one bound to slide `i`;
and after construction and after every sequence of `nextSlide()`,
`previousSlide()` and `goToSlide(i)` calls the current index is some `c < N`,
exactly the slide at `c` is marked active, and, when the container is
present, there are `N` indicators of which exactly the one at `c` is marked
active. -/
theorem base_exactly_one_active (m : Markup) (issued : Nat) (hN : 1 ≤ m.slides.length) :
    (constructBase Variant.base (some m) issued).currentSlide = some 0 ∧
      (constructBase Variant.base (some m) issued).autoPlayInterval ≠ none ∧
      (constructBase Variant.base (some m) issued).intervals.length = 1 ∧
      (m.indicators ≠ none →
        ∃ inds : List Bool,
          (constructBase Variant.base (some m) issued).indicators = some inds ∧
          inds.length = m.slides.length ∧
          ∀ i : Nat, i < m.slides.length →
            Listener.indicatorClick i ∈ (constructBase Variant.base (some m) issued).listeners ∧
            (dispatch (constructBase Variant.base (some m) issued)
              (Event.indicatorClick i)).currentSlide = some (i : Int)) ∧
      ∀ calls : List NavCall, ∃ c : Nat,
        c < m.slides.length ∧
        (calls.foldl NavCall.run (constructBase Variant.base (some m) issued)).currentSlide =
          some (c : Int) ∧
        (calls.foldl NavCall.run (constructBase Variant.base (some m) issued)).slides.length =
          m.slides.length ∧
        ActiveOnlyAt
          ((calls.foldl NavCall.run (constructBase Variant.base (some m) issued)).slides.map
            Slide.active) c ∧
        (m.indicators ≠ none →
          ∃ inds : List Bool,
            (calls.foldl NavCall.run (constructBase Variant.base (some m) issued)).indicators =
              some inds ∧
            inds.length = m.slides.length ∧ ActiveOnlyAt inds c) := by
  obtain ⟨hinv, hcur, hauto, hints, hls⟩ := constructBase_base_fields m issued hN
  refine ⟨hcur, by rw [hauto]; simp, by rw [hints]; rfl, ?_, ?_⟩
  · intro hm
    obtain ⟨_, hcount, _, hsome, c, _, _, hind⟩ := hinv
    have hs : m.indicators.isSome = true := by
      cases hmi : m.indicators with
      | none => exact absurd hmi hm
      | some _ => rfl
    rw [hs] at hsome
    obtain ⟨inds, hinds⟩ := Option.isSome_iff_exists.mp hsome
    refine ⟨inds, hinds, (hind inds hinds).1, ?_⟩
    intro i hi
    have hmem : Listener.indicatorClick i ∈
        (constructBase Variant.base (some m) issued).listeners := by
      rw [hls, hs]
      simp only [if_true, List.append_assoc, List.mem_append, List.mem_map, List.mem_range]
      exact Or.inl ⟨i, hi, rfl⟩
    refine ⟨hmem, ?_⟩
    unfold dispatch
    apply foldl_goToSlide_currentSlide m.slides.length (i : Int) (by omega) (by omega) _ _ hcount
    intro hnil
    have : Listener.indicatorClick i ∈
        (constructBase Variant.base (some m) issued).listeners.filter
          fun l => decide (l = (Event.indicatorClick i).listener) := by
      rw [List.mem_filter]
      exact ⟨hmem, by simp [Event.listener]⟩
    rw [hnil] at this
    cases this
  · intro calls
    obtain ⟨_, _, hlen, hsome, c, hc, hact, hind⟩ :=
      BaseInv_calls m.slides.length m.indicators.isSome calls _ hinv
    have hcN : c < m.slides.length := by
      have := hact.1
      simpa [hlen] using this
    refine ⟨c, hcN, hc, hlen, hact, ?_⟩
    intro hm
    have hs : m.indicators.isSome = true := by
      cases hmi : m.indicators with
      | none => exact absurd hmi hm
      | some _ => rfl
    rw [hs] at hsome
    obtain ⟨inds, hinds⟩ := Option.isSome_iff_exists.mp hsome
    exact ⟨inds, hinds, hind inds hinds⟩

/-- Witness for C5 (amended): the three-slide markup with an indicator
container. -/
theorem base_exactly_one_active_witness :
    1 ≤ demoMarkup.slides.length ∧
      (constructBase Variant.base (some demoMarkup) 0).currentSlide = some 0 ∧
      (constructBase Variant.base (some demoMarkup) 0).autoPlayInterval ≠ none ∧
      (constructBase Variant.base (some demoMarkup) 0).intervals.length = 1 ∧
      ∀ calls : List NavCall, ∃ c : Nat,
        c < demoMarkup.slides.length ∧
        (calls.foldl NavCall.run (constructBase Variant.base (some demoMarkup) 0)).currentSlide =
          some (c : Int) ∧
        ActiveOnlyAt
          ((calls.foldl NavCall.run (constructBase Variant.base (some demoMarkup) 0)).slides.map
            Slide.active) c ∧
        (demoMarkup.indicators ≠ none →
          ∃ inds : List Bool,
            (calls.foldl NavCall.run
              (constructBase Variant.base (some demoMarkup) 0)).indicators = some inds ∧
            inds.length = demoMarkup.slides.length ∧ ActiveOnlyAt inds c) :=
  ⟨by decide, (base_exactly_one_active demoMarkup 0 (by decide)).1,
    (base_exactly_one_active demoMarkup 0 (by decide)).2.1,
    (base_exactly_one_active demoMarkup 0 (by decide)).2.2.1,
    fun calls =>
      let ⟨c, h1, h2, _, h4, h5⟩ :=
        (base_exactly_one_active demoMarkup 0 (by decide)).2.2.2.2 calls
      ⟨c, h1, h2, h4, h5⟩⟩

/-! ## Fade -/

/-- C6 (evaluation at the failing input). A `FadeCarousel` on two slides,
settled on slide 0, then `goToSlide(1)` and both 300 ms callbacks run: the
first callback reads `this.currentSlide` when it runs, which is already 1,
so it removes `active` from the new slide and the second callback adds it
back; slide 0 keeps `active` (with opacity 0) and two slides are marked
active although the current index is 1. -/
theorem fade_old_slide_stays_active :
    fadeDemo.slides = [⟨true, Opacity.one⟩, ⟨false, Opacity.unset⟩] ∧
      fadeDemo.currentSlide = some 0 ∧ fadeDemo.timeouts = [] ∧
      (goToSlide fadeDemo (some 1)).timeouts =
        [⟨300, Callback.fadeOut⟩, ⟨300, Callback.fadeIn 1⟩] ∧
      (goToSlide fadeDemo (some 1)).currentSlide = some 1 ∧
      (settle (goToSlide fadeDemo (some 1))).timeouts = [] ∧
      (settle (goToSlide fadeDemo (some 1))).currentSlide = some 1 ∧
      (settle (goToSlide fadeDemo (some 1))).slides =
        [⟨true, Opacity.zero⟩, ⟨true, Opacity.one⟩] := by
  decide

/-! ## Progress bar -/

theorem goToSlideBase_progress_fields (s : State) (k : Option Int)
    (hv : s.variant = Variant.progress) :
    (goToSlideBase s k).autoPlayInterval = s.autoPlayInterval ∧
      (goToSlideBase s k).progressFill = s.progressFill ∧
      (goToSlideBase s k).timeouts = s.timeouts ∧
      (goToSlideBase s k).autoPlayDelay = s.autoPlayDelay := by
  unfold goToSlideBase
  split
  · split
    · simp [showSlide, hv, showSlideBase]
    · exact ⟨rfl, rfl, rfl, rfl⟩
  · exact ⟨rfl, rfl, rfl, rfl⟩

/-- C7, as the claim states it, fails: on a `ProgressCarousel` with auto-play
running, `goToSlide` with the current index (and with an out-of-range index)
restarts the fill all the same.  After a successful `goToSlide(1)` and its
kickoff the fill is at 100%; `goToSlide(1)` again changes no slide, yet the
width is back at 0% and a kickoff is scheduled; `goToSlide(7)` likewise. -/
theorem progress_redundant_goToSlide_restarts_fill :
    construct Variant.progress (some demoMarkup) 0 = Except.ok progressDemo ∧
      progressDemo.autoPlayInterval = some 1 ∧
      (settle (goToSlide progressDemo (some 1))).currentSlide = some 1 ∧
      (settle (goToSlide progressDemo (some 1))).timeouts = [] ∧
      (settle (goToSlide progressDemo (some 1))).progressFill =
        some ⟨Width.pct100, Transition.linear (some 5000)⟩ ∧
      (goToSlide (settle (goToSlide progressDemo (some 1))) (some 1)).slides =
        (settle (goToSlide progressDemo (some 1))).slides ∧
      (goToSlide (settle (goToSlide progressDemo (some 1))) (some 1)).currentSlide = some 1 ∧
      (goToSlide (settle (goToSlide progressDemo (some 1))) (some 1)).progressFill =
        some ⟨Width.pct0, Transition.linear (some 5000)⟩ ∧
      (goToSlide (settle (goToSlide progressDemo (some 1))) (some 1)).timeouts =
        [⟨100, Callback.fillKickoff⟩] ∧
      (goToSlide (settle (goToSlide progressDemo (some 1))) (some 7)).currentSlide = some 1 ∧
      (goToSlide (settle (goToSlide progressDemo (some 1))) (some 7)).progressFill =
        some ⟨Width.pct0, Transition.linear (some 5000)⟩ ∧
      (goToSlide (settle (goToSlide progressDemo (some 1))) (some 7)).timeouts =
        [⟨100, Callback.fillKickoff⟩] := by
  refine ⟨rfl, ?_⟩
  decide

/-- C7 (amended). On a `ProgressCarousel` whose fill element exists,
`goToSlide(index)` restarts the fill animation (width 0%, transition
`width <autoPlayDelay>ms linear`, a 100 ms kickoff scheduled that sets the
width to 100%) if and only if auto-play is running at that moment, whether or
not the call changes the slide; while auto-play is paused every `goToSlide`
leaves width and transition untouched and schedules nothing. -/
theorem progress_goToSlide_restart (s : State) (index : Int) (f : Fill)
    (hv : s.variant = Variant.progress) (hf : s.progressFill = some f) :
    ((goToSlide s (some index)).timeouts = s.timeouts ++ [⟨100, Callback.fillKickoff⟩] ↔
        s.autoPlayInterval ≠ none) ∧
      (s.autoPlayInterval ≠ none →
        (goToSlide s (some index)).progressFill =
          some ⟨Width.pct0, Transition.linear s.autoPlayDelay⟩ ∧
        (goToSlide s (some index)).timeouts = s.timeouts ++ [⟨100, Callback.fillKickoff⟩] ∧
        (runCallback (goToSlide s (some index)) Callback.fillKickoff).progressFill =
          some ⟨Width.pct100, Transition.linear s.autoPlayDelay⟩) ∧
      (s.autoPlayInterval = none →
        (goToSlide s (some index)).progressFill = s.progressFill ∧
        (goToSlide s (some index)).timeouts = s.timeouts) ∧
      (goToSlide s (some index)).currentSlide =
        (if goToSlideGuard s (some index) then some index else s.currentSlide) ∧
      (goToSlide s (some index)).autoPlayInterval = s.autoPlayInterval := by
  obtain ⟨ha, hp, ht, hd⟩ := goToSlideBase_progress_fields s (some index) hv
  have hrun : s.autoPlayInterval ≠ none →
      goToSlide s (some index) =
        { goToSlideBase s (some index) with
          progressFill := some ⟨Width.pct0, Transition.linear s.autoPlayDelay⟩
          timeouts := s.timeouts ++ [⟨100, Callback.fillKickoff⟩] } := by
    intro hne
    have hsome : (goToSlideBase s (some index)).autoPlayInterval.isSome = true := by
      rw [ha]
      exact Option.isSome_iff_ne_none.mpr hne
    unfold goToSlide
    simp only [hv, hsome, if_true]
    unfold animateProgress
    rw [hp, hf]
    simp only [hd, ht]
  have hstop : s.autoPlayInterval = none →
      goToSlide s (some index) = goToSlideBase s (some index) := by
    intro hn
    have hnone : (goToSlideBase s (some index)).autoPlayInterval.isSome = false := by
      rw [ha, hn]
      rfl
    unfold goToSlide
    simp [hv, hnone]
  refine ⟨⟨?_, ?_⟩, ?_, ?_, goToSlide_currentSlide s index, ?_⟩
  · intro h hn
    rw [hstop hn, ht] at h
    have := congrArg List.length h
    simp at this
  · intro hne
    rw [hrun hne]
  · intro hne
    rw [hrun hne]
    exact ⟨rfl, rfl, rfl⟩
  · intro hn
    rw [hstop hn]
    exact ⟨hp, ht⟩
  · by_cases hn : s.autoPlayInterval = none
    · rw [hstop hn]
      exact ha
    · rw [hrun hn]
      exact ha

/-- Witness for C7 (amended): the three-slide progress carousel, auto-play
running, asked for slide 1. -/
theorem progress_goToSlide_restart_witness :
    progressDemo.variant = Variant.progress ∧
      progressDemo.progressFill = some ⟨Width.pct0, Transition.ease300⟩ ∧
      progressDemo.autoPlayInterval ≠ none ∧
      (goToSlide progressDemo (some 1)).progressFill =
        some ⟨Width.pct0, Transition.linear progressDemo.autoPlayDelay⟩ ∧
      (goToSlide progressDemo (some 1)).timeouts =
        progressDemo.timeouts ++ [⟨100, Callback.fillKickoff⟩] ∧
      (runCallback (goToSlide progressDemo (some 1)) Callback.fillKickoff).progressFill =
        some ⟨Width.pct100, Transition.linear progressDemo.autoPlayDelay⟩ :=
  ⟨by decide, by decide, by decide,
    (progress_goToSlide_restart progressDemo 1 ⟨Width.pct0, Transition.ease300⟩ (by decide)
      (by decide)).2.1 (by decide)⟩

/-! ## Inert instances -/

/-- An instance without slides and without a running timer ignores every
navigation call. -/
theorem inert_nav (s : State) (ha : s.autoPlayInterval = none)
    (hN : s.slideCount = none ∨ s.slideCount = some 0) (c : NavCall) : NavCall.run s c = s := by
  have hmod : ∀ a, jsMod a (slideCountNum s) = none := by
    intro a
    rcases hN with h | h <;> cases a <;> simp [jsMod, slideCountNum, h]
  cases c with
  | next =>
    show goToSlide s _ = s
    rw [hmod]
    exact goToSlide_none s ha
  | previous =>
    show goToSlide s _ = s
    rw [hmod]
    exact goToSlide_none s ha
  | goTo index =>
    have hg : goToSlideGuard s (some index) = false := by
      rcases hN with h | h
      · simp [goToSlideGuard, h]
      · simp only [goToSlideGuard, h, Bool.and_eq_false_imp, Bool.and_eq_true,
          decide_eq_true_eq, decide_eq_false_iff_not]
        intro h1
        omega
    show goToSlide s (some index) = s
    unfold goToSlide goToSlideBase
    split <;> simp [hg, ha]

/-- C8 (evaluation at the failing input, with what holds around it).
`new ProgressCarousel(id)` for an `id` that matches no element throws: the
base constructor returns early, then `createProgressBar` reads
`this.carousel.style` on `null`.  The other two classes give an
inert instance there, and all three do on a container with zero slides:
nothing registered, nothing scheduled, no indicator created, navigation a
no-op. -/
theorem progress_missing_container_throws (issued : Nat) :
    construct Variant.progress none issued = Except.error JsError.typeError ∧
      construct Variant.base none issued = Except.ok (blank Variant.base issued) ∧
      construct Variant.fade none issued = Except.ok (blank Variant.fade issued) ∧
      (∀ (v : Variant) (c : NavCall), NavCall.run (blank v issued) c = blank v issued) ∧
      ∀ (v : Variant) (m : Markup), m.slides = [] →
        ∃ s : State, construct v (some m) issued = Except.ok s ∧ s.listeners = [] ∧
          s.intervals = [] ∧ s.timeouts = [] ∧ s.autoPlayInterval = none ∧
          s.indicators = m.indicators ∧ ∀ c : NavCall, NavCall.run s c = s := by
  refine ⟨rfl, rfl, rfl, ?_, ?_⟩
  · intro v c
    exact inert_nav _ rfl (Or.inl rfl) c
  · intro v m hm
    have hb : constructBase v (some m) issued =
        { blank v issued with
          carousel := true
          slides := m.slides
          prevBtn := m.prevBtn
          nextBtn := m.nextBtn
          indicators := m.indicators
          currentSlide := some 0
          slideCount := some m.slides.length
          autoPlayInterval := none
          autoPlayDelay := some 5000 } := by
      simp [constructBase, init, hm]
    have hfields : (constructBase v (some m) issued).carousel = true ∧
        (constructBase v (some m) issued).listeners = [] ∧
        (constructBase v (some m) issued).intervals = [] ∧
        (constructBase v (some m) issued).timeouts = [] ∧
        (constructBase v (some m) issued).autoPlayInterval = none ∧
        (constructBase v (some m) issued).indicators = m.indicators ∧
        (constructBase v (some m) issued).slideCount = some 0 := by
      rw [hb]
      exact ⟨rfl, rfl, rfl, rfl, rfl, rfl, by simp [hm]⟩
    obtain ⟨hcar, hl, hi, ht, ha, hind, hcount⟩ := hfields
    cases v with
    | progress =>
      refine ⟨{ constructBase Variant.progress (some m) issued with
          positionRelative := true
          progressBars := (constructBase Variant.progress (some m) issued).progressBars + 1
          progressFill := some ⟨Width.pct0, Transition.ease300⟩ },
        ?_, hl, hi, ht, ha, hind, ?_⟩
      · simp only [construct, createProgressBar, hcar, if_true]
      · intro c
        apply inert_nav
        · exact ha
        · exact Or.inr hcount
    | base =>
      exact ⟨_, rfl, hl, hi, ht, ha, hind, fun c => inert_nav _ ha (Or.inr hcount) c⟩
    | fade =>
      exact ⟨_, rfl, hl, hi, ht, ha, hind, fun c => inert_nav _ ha (Or.inr hcount) c⟩

/-! ## Teardown -/

/-- C9 (evaluation at the failing input). A default carousel with auto-play
running is destroyed: the handle is `null`, no timer is live and an elapsed
period runs nothing.  But `destroy()` removes no listener, so a later
pointer-leave runs `startAutoPlay()` again (a new live timer, whose next
period navigates), and a later click on the next button navigates. -/
theorem destroy_keeps_listeners :
    demoBase.autoPlayInterval = some 1 ∧
      (destroy demoBase).autoPlayInterval = none ∧
      (destroy demoBase).intervals = [] ∧
      fireIntervals (destroy demoBase) = destroy demoBase ∧
      (destroy demoBase).listeners = demoBase.listeners ∧
      Listener.mouseleave ∈ (destroy demoBase).listeners ∧
      (dispatch (destroy demoBase) Event.mouseleave).autoPlayInterval = some 2 ∧
      (dispatch (destroy demoBase) Event.mouseleave).intervals = [⟨2, some 5000⟩] ∧
      (destroy demoBase).currentSlide = some 0 ∧
      (fireIntervals (dispatch (destroy demoBase) Event.mouseleave)).currentSlide = some 1 ∧
      (dispatch (destroy demoBase) Event.nextClick).currentSlide = some 1 ∧
      (dispatch (destroy demoBase) (Event.keydown "ArrowRight" true)).currentSlide = some 1 := by
  decide

/-! ## Touch -/

/-- C10. For a touch gesture with integer coordinates, begun at
`(startX, startY)` (the `touchstart` listener stores the point) and ended at
`(endX, endY)`, with `deltaX = endX - startX` and `deltaY = endY - startY`:
the `touchend` listener calls `previousSlide()` exactly when
`|deltaX| > |deltaY|`, `|deltaX| > 50` and `deltaX > 0`, calls `nextSlide()`
exactly when `|deltaX| > |deltaY|`, `|deltaX| > 50` and `deltaX < 0`, and
otherwise navigates nowhere; `(-60, 5)` gives next, `(30, 5)` nothing,
`|deltaX| = 50` nothing. -/
theorem touchend_swipe (s : State) (startX startY endX endY : Int) :
    (swipeOf (endX - startX) (endY - startY) = some Swipe.previous ↔
        (|endX - startX| > |endY - startY| ∧ |endX - startX| > 50 ∧ endX - startX > 0)) ∧
      (swipeOf (endX - startX) (endY - startY) = some Swipe.next ↔
        (|endX - startX| > |endY - startY| ∧ |endX - startX| > 50 ∧ endX - startX < 0)) ∧
      ((|endX - startX| > |endY - startY| ∧ |endX - startX| > 50 ∧ endX - startX > 0) →
        onTouchEnd (onTouchStart s startX startY) endX endY =
          previousSlide
            { s with startX := startX, startY := startY, endX := endX, endY := endY }) ∧
      ((|endX - startX| > |endY - startY| ∧ |endX - startX| > 50 ∧ endX - startX < 0) →
        onTouchEnd (onTouchStart s startX startY) endX endY =
          nextSlide { s with startX := startX, startY := startY, endX := endX, endY := endY }) ∧
      (¬ (|endX - startX| > |endY - startY| ∧ |endX - startX| > 50) →
        onTouchEnd (onTouchStart s startX startY) endX endY =
          { s with startX := startX, startY := startY, endX := endX, endY := endY }) ∧
      handle (handle s (Event.touchstart startX startY)) (Event.touchend endX endY) =
        onTouchEnd (onTouchStart s startX startY) endX endY ∧
      (onTouchStart s startX startY).startX = startX ∧
      (onTouchStart s startX startY).startY = startY ∧
      onTouchEnd (onTouchStart s 100 100) 40 105 =
        nextSlide { s with startX := 100, startY := 100, endX := 40, endY := 105 } ∧
      onTouchEnd (onTouchStart s 100 100) 160 105 =
        previousSlide { s with startX := 100, startY := 100, endX := 160, endY := 105 } ∧
      onTouchEnd (onTouchStart s 100 100) 130 105 =
        { s with startX := 100, startY := 100, endX := 130, endY := 105 } ∧
      onTouchEnd (onTouchStart s 100 100) 150 100 =
        { s with startX := 100, startY := 100, endX := 150, endY := 100 } ∧
      onTouchEnd (onTouchStart s 100 100) 50 100 =
        { s with startX := 100, startY := 100, endX := 50, endY := 100 } ∧
      onTouchEnd (onTouchStart s 100 100) 40 170 =
        { s with startX := 100, startY := 100, endX := 40, endY := 170 } ∧
      (dispatch (dispatch demoBase (Event.touchstart 100 100))
        (Event.touchend 40 105)).currentSlide = some 1 ∧
      (dispatch (dispatch demoBase (Event.touchstart 100 100))
        (Event.touchend 160 105)).currentSlide = some 2 ∧
      (dispatch (dispatch demoBase (Event.touchstart 100 100))
        (Event.touchend 130 105)).currentSlide = some 0 ∧
      swipeOf (-60) 5 = some Swipe.next ∧ swipeOf 30 5 = none ∧ swipeOf 50 0 = none ∧
      swipeOf (-50) 0 = none := by
  have key : ∀ dx dy : Int,
      (swipeOf dx dy = some Swipe.previous ↔ (|dx| > |dy| ∧ |dx| > 50 ∧ dx > 0)) ∧
      (swipeOf dx dy = some Swipe.next ↔ (|dx| > |dy| ∧ |dx| > 50 ∧ dx < 0)) ∧
      (swipeOf dx dy = none ↔ ¬ (|dx| > |dy| ∧ |dx| > 50)) := by
    intro dx dy
    rw [Int.abs_eq_natAbs dx, Int.abs_eq_natAbs dy]
    unfold swipeOf
    refine ⟨?_, ?_, ?_⟩
    · split
      · split
        · simp only [true_iff]
          omega
        · simp only [Option.some.injEq, reduceCtorEq, false_iff]
          omega
      · simp only [reduceCtorEq, false_iff]
        omega
    · split
      · split
        · simp only [Option.some.injEq, reduceCtorEq, false_iff]
          omega
        · simp only [true_iff]
          omega
      · simp only [reduceCtorEq, false_iff]
        omega
    · split
      · split
        · simp only [reduceCtorEq, false_iff]
          omega
        · simp only [reduceCtorEq, false_iff]
          omega
      · simp only [true_iff]
        omega
  have hp : ∀ sx sy ex ey : Int, swipeOf (ex - sx) (ey - sy) = some Swipe.previous →
      onTouchEnd (onTouchStart s sx sy) ex ey =
        previousSlide { s with startX := sx, startY := sy, endX := ex, endY := ey } := by
    intro sx sy ex ey h
    simp only [onTouchEnd, onTouchStart, h]
  have hn : ∀ sx sy ex ey : Int, swipeOf (ex - sx) (ey - sy) = some Swipe.next →
      onTouchEnd (onTouchStart s sx sy) ex ey =
        nextSlide { s with startX := sx, startY := sy, endX := ex, endY := ey } := by
    intro sx sy ex ey h
    simp only [onTouchEnd, onTouchStart, h]
  have h0 : ∀ sx sy ex ey : Int, swipeOf (ex - sx) (ey - sy) = none →
      onTouchEnd (onTouchStart s sx sy) ex ey =
        { s with startX := sx, startY := sy, endX := ex, endY := ey } := by
    intro sx sy ex ey h
    simp only [onTouchEnd, onTouchStart, h]
  refine ⟨(key _ _).1, (key _ _).2.1, ?_, ?_, ?_, rfl, rfl, rfl, hn _ _ _ _ (by decide),
    hp _ _ _ _ (by decide), h0 _ _ _ _ (by decide), h0 _ _ _ _ (by decide),
    h0 _ _ _ _ (by decide), h0 _ _ _ _ (by decide), by decide, by decide, by decide,
    by decide, by decide, by decide, by decide⟩
  · intro h
    exact hp _ _ _ _ ((key _ _).1.mpr h)
  · intro h
    exact hn _ _ _ _ ((key _ _).2.1.mpr h)
  · intro h
    exact h0 _ _ _ _ ((key _ _).2.2.mpr h)

/-! ## Keyboard -/

/-- C11. For a key-down event on a carousel with a container element:
`handleKeyboard` does nothing (state unchanged, default action not
suppressed) when the carousel does not contain the focused element; when it
does, `ArrowLeft` calls `previousSlide()`, `ArrowRight` calls `nextSlide()`,
`' '` and `Enter` call `toggleAutoPlay()` (which pauses if auto-play is
running and starts it otherwise), each of the four suppressing the default
action; every other key changes nothing and suppresses nothing. -/
theorem handleKeyboard_keys (s : State) (key : String) (hc : s.carousel = true) :
    handleKeyboard s key false = (s, false) ∧
      handleKeyboard s "ArrowLeft" true = (previousSlide s, true) ∧
      handleKeyboard s "ArrowRight" true = (nextSlide s, true) ∧
      handleKeyboard s " " true = (toggleAutoPlay s, true) ∧
      handleKeyboard s "Enter" true = (toggleAutoPlay s, true) ∧
      (s.autoPlayInterval ≠ none → toggleAutoPlay s = pauseAutoPlay s) ∧
      (s.autoPlayInterval = none → toggleAutoPlay s = startAutoPlay s) ∧
      (key ≠ "ArrowLeft" → key ≠ "ArrowRight" → key ≠ " " → key ≠ "Enter" →
        handleKeyboard s key true = (s, false)) ∧
      (handleKeyboard s key true).2 =
        decide (key = "ArrowLeft" ∨ key = "ArrowRight" ∨ key = " " ∨ key = "Enter") := by
  have _ := hc
  refine ⟨by simp [handleKeyboard], by simp [handleKeyboard, keyAction],
    by simp [handleKeyboard, keyAction], by simp [handleKeyboard, keyAction],
    by simp [handleKeyboard, keyAction], ?_, ?_, ?_, ?_⟩
  · intro h
    have : s.autoPlayInterval.isSome = true := Option.isSome_iff_ne_none.mpr h
    simp [toggleAutoPlay, this]
  · intro h
    simp [toggleAutoPlay, h]
  · intro h1 h2 h3 h4
    simp [handleKeyboard, keyAction, h1, h2, h3, h4]
  · by_cases h1 : key = "ArrowLeft"
    · simp [handleKeyboard, keyAction, h1]
    · by_cases h2 : key = "ArrowRight"
      · simp [handleKeyboard, keyAction, h2]
      · by_cases h3 : key = " "
        · simp [handleKeyboard, keyAction, h3]
        · by_cases h4 : key = "Enter"
          · simp [handleKeyboard, keyAction, h4]
          · simp [handleKeyboard, keyAction, h1, h2, h3, h4]

/-- Witness for C11: the three-slide default carousel and the key `a`. -/
theorem handleKeyboard_keys_witness :
    demoBase.carousel = true ∧
      handleKeyboard demoBase "a" false = (demoBase, false) ∧
      handleKeyboard demoBase "ArrowLeft" true = (previousSlide demoBase, true) ∧
      handleKeyboard demoBase "ArrowRight" true = (nextSlide demoBase, true) ∧
      handleKeyboard demoBase " " true = (toggleAutoPlay demoBase, true) ∧
      handleKeyboard demoBase "Enter" true = (toggleAutoPlay demoBase, true) ∧
      (demoBase.autoPlayInterval ≠ none → toggleAutoPlay demoBase = pauseAutoPlay demoBase) ∧
      (demoBase.autoPlayInterval = none → toggleAutoPlay demoBase = startAutoPlay demoBase) ∧
      ("a" ≠ "ArrowLeft" → "a" ≠ "ArrowRight" → "a" ≠ " " → "a" ≠ "Enter" →
        handleKeyboard demoBase "a" true = (demoBase, false)) ∧
      (handleKeyboard demoBase "a" true).2 =
        decide ("a" = "ArrowLeft" ∨ "a" = "ArrowRight" ∨ "a" = " " ∨ "a" = "Enter") :=
  ⟨by decide, handleKeyboard_keys demoBase "a" (by decide)⟩

/-! ## Factory -/

theorem init_variant (s : State) : (init s).variant = s.variant := by
  unfold init
  split
  · rfl
  · rw [showSlide_variant]
    have hb : ∀ x : State, (startAutoPlayBase x).variant = x.variant := by
      intro x
      unfold startAutoPlayBase pauseAutoPlay
      split <;> rfl
    have hc : (createIndicators s).variant = s.variant := by
      unfold createIndicators
      split <;> rfl
    unfold startAutoPlay
    split
    · rw [animateProgress_variant, hb]
      exact hc
    · rw [hb]
      exact hc

theorem construct_variant (v : Variant) (el : Option Markup) (issued : Nat) (s : State)
    (h : construct v el issued = Except.ok s) : s.variant = v := by
  have hb : (constructBase v el issued).variant = v := by
    unfold constructBase
    cases el with
    | none => rfl
    | some m =>
      simp only []
      rw [init_variant]
      rfl
  unfold construct at h
  split at h
  · unfold createProgressBar at h
    split at h
    · injection h with h
      subst h
      exact hb
    · cases h
  · injection h with h
    subst h
    exact hb

theorem init_carousel (s : State) : (init s).carousel = s.carousel := by
  unfold init
  split
  · rfl
  · have hshow : ∀ (x : State) (i : Int), (showSlide x i).carousel = x.carousel := by
      intro x i
      unfold showSlide showSlideFade showSlideBase
      split
      · cases jsIndex x.slides x.currentSlide <;> rfl
      · rfl
    have hanim : ∀ x : State, (animateProgress x).carousel = x.carousel := by
      intro x
      unfold animateProgress
      split <;> rfl
    have hb : ∀ x : State, (startAutoPlayBase x).carousel = x.carousel := by
      intro x
      unfold startAutoPlayBase pauseAutoPlay
      split <;> rfl
    have hc : (createIndicators s).carousel = s.carousel := by
      unfold createIndicators
      split <;> rfl
    rw [hshow]
    unfold startAutoPlay
    split
    · rw [hanim, hb]
      exact hc
    · rw [hb]
      exact hc

/-- On an element that exists, no constructor throws. -/
theorem construct_some_ok (v : Variant) (m : Markup) (issued : Nat) :
    ∃ s : State, construct v (some m) issued = Except.ok s := by
  have hc : (constructBase v (some m) issued).carousel = true := by
    unfold constructBase
    simp only []
    rw [init_carousel]
  cases v with
  | progress =>
    refine ⟨{ constructBase Variant.progress (some m) issued with
      positionRelative := true
      progressBars := (constructBase Variant.progress (some m) issued).progressBars + 1
      progressFill := some ⟨Width.pct0, Transition.ease300⟩ }, ?_⟩
    simp only [construct, createProgressBar, hc, if_true]
  | base => exact ⟨_, rfl⟩
  | fade => exact ⟨_, rfl⟩

theorem switchType_carouselType (type : JsValue) :
    switchType (carouselType type) =
      if type = JsValue.str "fade" then Variant.fade
      else if type = JsValue.str "progress" then Variant.progress
      else Variant.base := by
  cases type with
  | undefined => simp [carouselType, switchType]
  | other b => cases b <;> simp [carouselType, switchType]
  | str s =>
    by_cases h0 : s = ""
    · subst h0
      simp [carouselType, switchType]
    · simp only [carouselType, h0, if_false, switchType, JsValue.str.injEq]

theorem carousel_id_ne_empty (containerId : String) : ¬ containerId ++ "-carousel" = "" := by
  intro h
  have := congrArg String.length h
  simp only [String.length_append] at this
  have h9 : "-carousel".length = 9 := by decide
  have h0 : "".length = 0 := by decide
  omega

/-! ### The parser reads back the plain form of a plain tree -/

theorem takeUntil_append (stop : Char) (t rest : List Char) (ht : ∀ c ∈ t, ¬ c = stop)
    (hr : rest = [] ∨ ∃ r, rest = stop :: r) : takeUntil stop (t ++ rest) = (t, rest) := by
  induction t with
  | nil =>
    rcases hr with h | ⟨r, h⟩
    · subst h
      rfl
    · subst h
      simp [takeUntil]
  | cons c t ih =>
    have hc : ¬ c = stop := ht c (List.mem_cons_self _ _)
    have := ih (fun x hx => ht x (List.mem_cons_of_mem _ hx))
    simp [takeUntil, hc, this]

theorem takeName_append (n : List Char) (c : Char) (r : List Char)
    (hn : ∀ x ∈ n, nameChar x = true) (hc : nameChar c = false) :
    takeName (n ++ c :: r) = (n, c :: r) := by
  induction n with
  | nil => simp [takeName, hc]
  | cons x n ih =>
    have hx : nameChar x = true := hn x (List.mem_cons_self _ _)
    have := ih (fun y hy => hn y (List.mem_cons_of_mem _ hy))
    simp [takeName, hx, this]

theorem dropLit_append (lit rest : List Char) : dropLit lit (lit ++ rest) = some rest := by
  induction lit with
  | nil => cases rest <;> rfl
  | cons l lit ih => simp [dropLit, ih]

theorem attrName_chars (k : String) (h : k = "class" ∨ k = "id" ∨ k = "href") :
    (∀ x ∈ k.data, (isTagWs x || x = '/' || x = '>' || x = '=') = false) ∧
      k.data.all attrNameOk = true ∧
      ∃ c r, k.data = c :: r ∧ ¬ c = '>' ∧ isTagWs c = false ∧
        ¬ (c = '/' ∨ c = '=') := by
  rcases h with h | h | h <;> subst h <;>
    exact ⟨by decide, by decide, _, _, rfl, by decide, by decide, by decide⟩

theorem takeAttrName_append (n : List Char) (c : Char) (r : List Char)
    (hn : ∀ x ∈ n, (isTagWs x || x = '/' || x = '>' || x = '=') = false)
    (hc : (isTagWs c || c = '/' || c = '>' || c = '=') = true) :
    takeAttrName (n ++ c :: r) = (n, c :: r) := by
  induction n with
  | nil => simp only [List.nil_append, takeAttrName, hc, if_true]
  | cons x n ih =>
    have hx := hn x (List.mem_cons_self _ _)
    have := ih (fun y hy => hn y (List.mem_cons_of_mem _ hy))
    rw [List.cons_append, takeAttrName]
    simp only [hx, Bool.false_eq_true, if_false, this]

theorem decodeRefs_plain (l : List Char) (h : ∀ c ∈ l, textOk c = true) :
    decodeRefs 0 l = some l := by
  induction l with
  | nil => rfl
  | cons c l ih =>
    have hc := h c (List.mem_cons_self _ _)
    have hamp : ¬ c = '&' := by
      intro e
      subst e
      exact absurd hc (by decide)
    have := ih (fun y hy => h y (List.mem_cons_of_mem _ hy))
    simp only [decodeRefs, hamp, if_false, hc, if_true, this, Option.map_some']

theorem attrOk_textOk (c : Char) (h : attrOk c = true) : textOk c = true ∧ ¬ c = dquote := by
  simp only [attrOk, Bool.not_eq_true', Bool.or_eq_false_iff, decide_eq_false_iff_not] at h
  refine ⟨?_, h.1.1.1⟩
  simp only [textOk, Bool.not_eq_true', Bool.or_eq_false_iff, decide_eq_false_iff_not]
  exact ⟨⟨h.1.1.2, h.1.2⟩, h.2⟩

theorem renderAttrs_length (attrs : List (String × String)) :
    2 * attrs.length ≤ (renderAttrs attrs).length := by
  induction attrs with
  | nil => simp
  | cons kv rest ih =>
    simp only [renderAttrs, List.length_cons, List.length_append]
    omega

theorem readAttrs_render (attrs : List (String × String)) :
    ∀ (fuel : Nat) (rest : List Char), attrsOk attrs = true → 2 * attrs.length < fuel →
      readAttrs fuel (renderAttrs attrs ++ '>' :: rest) = some (attrs, rest) := by
  induction attrs with
  | nil =>
    intro fuel rest _ hf
    cases fuel with
    | zero => omega
    | succ fuel => simp [renderAttrs, readAttrs]
  | cons kv tl ih =>
    intro fuel rest hok hf
    cases fuel with
    | zero => omega
    | succ fuel =>
      cases fuel with
      | zero => simp only [List.length_cons] at hf; omega
      | succ fuel =>
        obtain ⟨k, v⟩ := kv
        simp only [attrsOk, Bool.and_eq_true, Bool.or_eq_true, decide_eq_true_eq,
          List.all_eq_true] at hok
        obtain ⟨⟨hk, hv⟩, htl⟩ := hok
        have hk3 : k = "class" ∨ k = "id" ∨ k = "href" := by
          rcases hk with (h | h) | h
          · exact Or.inl h
          · exact Or.inr (Or.inl h)
          · exact Or.inr (Or.inr h)
        obtain ⟨hkch, hkok, c0, k0, hkd, hc1, hc2, hc3⟩ := attrName_chars k hk3
        have hname : takeAttrName (k.data ++ '=' :: (dquote :: (v.data ++
            (dquote :: (renderAttrs tl ++ '>' :: rest))))) =
            (k.data,
              '=' :: (dquote :: (v.data ++ (dquote :: (renderAttrs tl ++ '>' :: rest))))) :=
          takeAttrName_append _ _ _ hkch (by decide)
        have hval : takeUntil dquote (v.data ++ (dquote :: (renderAttrs tl ++ '>' :: rest))) =
            (v.data, dquote :: (renderAttrs tl ++ '>' :: rest)) := by
          apply takeUntil_append
          · intro c hc
            exact (attrOk_textOk c (hv c hc)).2
          · exact Or.inr ⟨_, rfl⟩
        have hdec : decodeRefs 0 v.data = some v.data :=
          decodeRefs_plain _ (fun c hc => (attrOk_textOk c (hv c hc)).1)
        have hrec := ih fuel rest htl (by simp only [List.length_cons] at hf; omega)
        have hform : renderAttrs ((k, v) :: tl) ++ '>' :: rest =
            ' ' :: (k.data ++ '=' :: (dquote :: (v.data ++
              (dquote :: (renderAttrs tl ++ '>' :: rest))))) := by
          simp only [renderAttrs, List.cons_append, List.append_assoc]
        have hform2 : k.data ++ '=' :: (dquote :: (v.data ++
              (dquote :: (renderAttrs tl ++ '>' :: rest)))) =
            c0 :: (k0 ++ '=' :: (dquote :: (v.data ++
              (dquote :: (renderAttrs tl ++ '>' :: rest))))) := by
          rw [hkd]
          rfl
        have hws : isTagWs ' ' = true := by decide
        rw [hform, readAttrs]
        simp only [if_neg (by decide : ¬ ' ' = '>'), hws, if_true]
        rw [hform2, readAttrs]
        simp only [if_neg hc1, hc2, Bool.false_eq_true, if_false, if_neg hc3]
        rw [← hform2, hname]
        simp only [hkok, if_true, if_neg (by decide : ¬ '=' = '>'), hval, hdec, hrec]

theorem tag_chars (ctx : Ctx) (tag : String) (h : ctx.allows tag = true) :
    (∀ x ∈ tag.data, nameChar x = true) ∧ ∃ c r, tag.data = c :: r ∧ ¬ c = '/' := by
  have hmem : tag = "div" ∨ tag = "p" ∨ tag = "h3" ∨ tag = "button" ∨ tag = "a" ∨
      tag = "i" := by
    unfold Ctx.allows at h
    by_cases h1 : tag = "div"
    · exact Or.inl h1
    · by_cases h2 : tag = "p"
      · exact Or.inr (Or.inl h2)
      · by_cases h3 : tag = "h3"
        · exact Or.inr (Or.inr (Or.inl h3))
        · by_cases h4 : tag = "button"
          · exact Or.inr (Or.inr (Or.inr (Or.inl h4)))
          · by_cases h5 : tag = "a"
            · exact Or.inr (Or.inr (Or.inr (Or.inr (Or.inl h5))))
            · by_cases h6 : tag = "i"
              · exact Or.inr (Or.inr (Or.inr (Or.inr (Or.inr h6))))
              · simp [h1, h2, h3, h4, h5, h6] at h
  rcases hmem with h | h | h | h | h | h <;> subst h <;>
    exact ⟨by decide, _, _, rfl, by decide⟩

theorem readOpen_render (ctx : Ctx) (tag : String) (attrs : List (String × String))
    (rest : List Char) (ht : ctx.allows tag = true) (ha : attrsOk attrs = true)
    (hn : (attrs.map Prod.fst).Nodup) :
    readOpen (tag.data ++ (renderAttrs attrs ++ '>' :: rest)) = some (tag, attrs, rest) := by
  obtain ⟨hchars, _⟩ := tag_chars ctx tag ht
  have hname : takeName (tag.data ++ (renderAttrs attrs ++ '>' :: rest)) =
      (tag.data, renderAttrs attrs ++ '>' :: rest) := by
    cases attrs with
    | nil => exact takeName_append _ _ _ hchars (by decide)
    | cons kv tl =>
      simp only [renderAttrs, List.cons_append]
      exact takeName_append _ _ _ hchars (by decide)
  have hlen : 2 * attrs.length < (renderAttrs attrs ++ '>' :: rest).length := by
    have := renderAttrs_length attrs
    simp only [List.length_append, List.length_cons]
    omega
  have hhead : ∃ c r, renderAttrs attrs ++ '>' :: rest = c :: r ∧
      (c = '>' ∨ isTagWs c = true) := by
    cases attrs with
    | nil => exact ⟨_, _, rfl, Or.inl rfl⟩
    | cons kv tl => exact ⟨_, _, rfl, Or.inr (by decide)⟩
  obtain ⟨c, r, hcr, hc⟩ := hhead
  have hread := readAttrs_render attrs _ rest ha hlen
  unfold readOpen
  rw [hname]
  simp only []
  rw [hcr] at hread ⊢
  simp only [hc, if_true, hread, hn]

theorem render_head (ctx : Ctx) (d : Dom) (h : okDom ctx d = true) (hnt : d.isText = false)
    (rest : List Char) (hr : rest = [] ∨ ∃ r, rest = '<' :: r) :
    render d ++ rest = [] ∨ ∃ r, render d ++ rest = '<' :: r := by
  cases d with
  | nil => simpa [render] using hr
  | text t sib => simp [Dom.isText] at hnt
  | node tag attrs op ch sib =>
    right
    exact ⟨_, rfl⟩

theorem parseNodes_render (d : Dom) :
    ∀ (ctx : Ctx) (fuel : Nat) (rest : List Char), okDom ctx d = true →
      (rest = [] ∨ ∃ r, rest = '<' :: '/' :: r) → d.size < fuel →
      parseNodes fuel ctx (render d ++ rest) = some (d, rest) := by
  induction d with
  | nil =>
    intro ctx fuel rest _ hr hf
    cases fuel with
    | zero => omega
    | succ fuel =>
      rcases hr with h | ⟨r, h⟩
      · subst h
        simp [render, parseNodes]
      · subst h
        simp [render, parseNodes]
  | text t sib ihs =>
    intro ctx fuel rest hok hr hf
    cases fuel with
    | zero => omega
    | succ fuel =>
      simp only [okDom, Bool.and_eq_true, Bool.not_eq_true', List.all_eq_true,
        decide_eq_false_iff_not] at hok
      obtain ⟨⟨⟨hne, hchars⟩, hnt⟩, hsib⟩ := hok
      have hr2 : rest = [] ∨ ∃ r, rest = '<' :: r := by
        rcases hr with h | ⟨r, h⟩
        · exact Or.inl h
        · exact Or.inr ⟨_, h⟩
      have hnext := render_head ctx sib hsib hnt rest hr2
      obtain ⟨c, tl, hdata⟩ : ∃ c tl, t.data = c :: tl := by
        cases hd : t.data with
        | nil => simp [hd] at hne
        | cons c tl => exact ⟨c, tl, rfl⟩
      have hlt : ∀ x ∈ t.data, ¬ x = '<' := by
        intro x hx
        have := hchars x hx
        simp only [Bool.and_eq_true, Bool.not_eq_true', decide_eq_false_iff_not] at this
        exact this.1
      have hc : ¬ c = '<' := hlt c (by rw [hdata]; exact List.mem_cons_self _ _)
      have hsplit : takeUntil '<' (t.data ++ (render sib ++ rest)) =
          (t.data, render sib ++ rest) := takeUntil_append '<' _ _ hlt hnext
      have hall : decodeRefs 0 t.data = some t.data := by
        apply decodeRefs_plain
        intro x hx
        have := hchars x hx
        simp only [Bool.and_eq_true] at this
        exact this.2
      have hrec := ihs ctx fuel rest hsib hr (by simp only [Dom.size] at hf; omega)
      have hform : render (Dom.text t sib) ++ rest = c :: (tl ++ (render sib ++ rest)) := by
        simp only [render, hdata, List.cons_append, List.append_assoc]
      rw [hform]
      unfold parseNodes
      simp only [hc, if_false]
      have hsplit2 : takeUntil '<' (c :: (tl ++ (render sib ++ rest))) =
          (c :: tl, render sib ++ rest) := by
        rw [hdata] at hsplit
        exact hsplit
      rw [hsplit2]
      simp only []
      rw [← hdata, hall]
      simp only [if_true, hrec]
  | node tag attrs op ch sib ihc ihs =>
    intro ctx fuel rest hok hr hf
    cases fuel with
    | zero => omega
    | succ fuel =>
      simp only [okDom, Bool.and_eq_true, decide_eq_true_eq] at hok
      obtain ⟨⟨⟨⟨⟨hallow, hattrs⟩, hnodup⟩, hop⟩, hch⟩, hsib⟩ := hok
      subst hop
      obtain ⟨_, c, tl, hdata, hc⟩ := tag_chars ctx tag hallow
      have hopen := readOpen_render ctx tag attrs
        (render ch ++ (closeTag tag ++ (render sib ++ rest))) hallow hattrs hnodup
      have hrch := ihc (ctx.enter tag) fuel (closeTag tag ++ (render sib ++ rest)) hch
        (Or.inr ⟨_, rfl⟩)
        (by simp only [Dom.size] at hf; omega)
      have hrsib := ihs ctx fuel rest hsib hr (by simp only [Dom.size] at hf; omega)
      have hclose : dropLit ('<' :: '/' :: (tag.data ++ ['>']))
          (closeTag tag ++ (render sib ++ rest)) = some (render sib ++ rest) := by
        exact dropLit_append _ _
      have hform : render (Dom.node tag attrs Opacity.unset ch sib) ++ rest =
          '<' :: (tag.data ++ (renderAttrs attrs ++
            '>' :: (render ch ++ (closeTag tag ++ (render sib ++ rest))))) := by
        simp only [render, openTag, List.cons_append, List.append_assoc, List.nil_append]
      rw [hform]
      have hform2 : tag.data ++ (renderAttrs attrs ++
            '>' :: (render ch ++ (closeTag tag ++ (render sib ++ rest)))) =
          c :: (tl ++ (renderAttrs attrs ++
            '>' :: (render ch ++ (closeTag tag ++ (render sib ++ rest))))) := by
        rw [hdata]
        rfl
      unfold parseNodes
      simp only [if_true]
      rw [hform2]
      simp only [hc, if_false]
      rw [← hform2, hopen]
      simp only [hallow, if_true, hrch, hclose, hrsib]

theorem size_le_render (ctx : Ctx) (d : Dom) :
    okDom ctx d = true → d.size ≤ (render d).length := by
  induction d generalizing ctx with
  | nil => intro _; simp [Dom.size]
  | text t sib ihs =>
    intro hok
    simp only [okDom, Bool.and_eq_true, Bool.not_eq_true'] at hok
    obtain ⟨⟨⟨hne, _⟩, _⟩, hsib⟩ := hok
    have := ihs ctx hsib
    have hpos : 0 < t.data.length := by
      cases hd : t.data with
      | nil => simp [hd] at hne
      | cons c tl => simp
    simp only [Dom.size, render, List.length_append]
    omega
  | node tag attrs op ch sib ihc ihs =>
    intro hok
    simp only [okDom, Bool.and_eq_true] at hok
    obtain ⟨⟨_, hch⟩, hsib⟩ := hok
    have h1 := ihc _ hch
    have h2 := ihs _ hsib
    simp only [Dom.size, render, openTag, closeTag, List.length_append, List.length_cons]
    omega

/-- On the plain form of a plain tree the fragment parser gives that tree. -/
theorem parseFragment_render (d : Dom) (html : String) (hok : okDom Ctx.top d = true)
    (hr : html.data = render d) : parseFragment "div" html = some d := by
  have hsize := size_le_render Ctx.top d hok
  have := parseNodes_render d Ctx.top (html.data.length + 1) [] hok (Or.inl rfl)
    (by rw [hr]; omega)
  rw [List.append_nil, ← hr] at this
  simp only [parseFragment, if_true, this]

/-! ### The template string is the text of the tree it depicts -/

theorem render_textNode (t : String) : render (textNode t) = t.data := by
  unfold textNode
  split
  · next h => rw [h]; rfl
  · simp [render]

theorem render_text (t : String) (sib : Dom) (r : List Char) :
    render (Dom.text t sib) ++ r = t.data ++ (render sib ++ r) := by
  simp only [render, List.append_assoc]

theorem render_el (tag : String) (attrs : List (String × String)) (ch sib : Dom)
    (r : List Char) :
    render (el tag attrs ch sib) ++ r =
      openTag tag attrs ++ (render ch ++ (closeTag tag ++ (render sib ++ r))) := by
  simp only [el, render, List.append_assoc]

theorem render_nil (r : List Char) : render Dom.nil ++ r = r := rfl

theorem openTag_class (tag v : String) (pre : String) (r : List Char)
    (hpre : pre.data = '<' :: (tag.data ++ (' ' :: ("class".data ++ ['=', dquote])))) :
    pre.data ++ (v.data ++ ("\">".data ++ r)) = openTag tag [("class", v)] ++ r := by
  have h2 : "\">".data = [dquote, '>'] := rfl
  rw [hpre, h2]
  simp only [openTag, renderAttrs, List.cons_append, List.append_assoc, List.nil_append]

theorem openTag_slide (act : String) (r : List Char) :
    "<div class=\"carousel-slide ".data ++ (act.data ++ ("\">".data ++ r)) =
      openTag "div" [("class", "carousel-slide " ++ act)] ++ r := by
  have h1 : "<div class=\"carousel-slide ".data =
      '<' :: ("div".data ++ (' ' :: ("class".data ++ ('=' :: dquote ::
        "carousel-slide ".data)))) := rfl
  have h2 : "\">".data = [dquote, '>'] := rfl
  rw [h1, h2]
  simp only [openTag, renderAttrs, String.data_append, List.cons_append, List.append_assoc,
    List.nil_append]

theorem openTag_root (containerId : String) (r : List Char) :
    "<div class=\"carousel\" id=\"".data ++ (containerId.data ++ ("-carousel\">".data ++ r)) =
      openTag "div" [("class", "carousel"), ("id", containerId ++ "-carousel")] ++ r := by
  have h1 : "<div class=\"carousel\" id=\"".data =
      '<' :: ("div".data ++ (' ' :: ("class".data ++ ('=' :: dquote :: ("carousel".data ++
        (dquote :: ' ' :: ("id".data ++ ['=', dquote]))))))) := rfl
  have h2 : "-carousel\">".data = "-carousel".data ++ [dquote, '>'] := rfl
  rw [h1, h2]
  simp only [openTag, renderAttrs, String.data_append, List.cons_append, List.append_assoc,
    List.nil_append]

theorem openTag_link (link : String) (r : List Char) :
    "<a href=\"".data ++ (link.data ++ ("\" class=\"btn btn-primary\">".data ++ r)) =
      openTag "a" [("href", link), ("class", "btn btn-primary")] ++ r := by
  have h1 : "<a href=\"".data = '<' :: ("a".data ++ (' ' :: ("href".data ++ ['=', dquote]))) :=
    rfl
  have h2 : "\" class=\"btn btn-primary\">".data =
      dquote :: ' ' :: ("class".data ++ ('=' :: dquote :: ("btn btn-primary".data ++
        [dquote, '>']))) := rfl
  rw [h1, h2]
  simp only [openTag, renderAttrs, List.cons_append, List.append_assoc, List.nil_append]

theorem buttonTree_render (slide : SlideDesc) (r : List Char) :
    (ws 32).data ++ ((buttonHTML slide).data ++ ((ws 28).data ++ r)) =
      render (buttonTree slide) ++ r := by
  have hempty : (ws 32).data ++ ("".data ++ ((ws 28).data ++ r)) =
      render (Dom.text (ws 32 ++ ws 28) Dom.nil) ++ r := by
    simp only [render, String.data_append, List.append_assoc, List.append_nil]
    rfl
  unfold buttonHTML buttonTree
  cases hb : slide.buttonText with
  | none => exact hempty
  | some txt =>
    by_cases h0 : txt = ""
    · simp only [h0, if_true]
      exact hempty
    · simp only [h0, if_false]
      rw [render_text, render_el, render_text, render_nil, render_text, render_nil]
      simp only [String.data_append, List.append_assoc]
      rw [openTag_link]
      rfl

theorem slideInner_render (slide : SlideDesc) (r : List Char) :
    (ws 24).data ++ ("<div class=\"slide-content\">".data ++
      ((ws 28).data ++ ("<div class=\"slide-image\">".data ++
      ((ws 32).data ++ ("<i class=\"".data ++ ((jsOr slide.icon "fas fa-image").data ++
        ("\">".data ++ ("</i>".data ++
      ((ws 28).data ++ ("</div>".data ++
      ((ws 28).data ++ ("<div class=\"slide-text\">".data ++
      ((ws 32).data ++ ("<h3>".data ++ (slide.title.data ++ ("</h3>".data ++
      ((ws 32).data ++ ("<p>".data ++ (slide.description.data ++ ("</p>".data ++
      ((ws 32).data ++ ((buttonHTML slide).data ++
      ((ws 28).data ++ ("</div>".data ++
      ((ws 24).data ++ ("</div>".data ++
      ((ws 20).data ++ r))))))))))))))))))))))))))) =
      render (slideInner slide) ++ r := by
  unfold slideInner
  simp only [render_text, render_el, render_nil, render_textNode]
  rw [← buttonTree_render, openTag_class "i" _ "<i class=\"" _ rfl]
  rfl

theorem slidesTree_render (slides : List SlideDesc) :
    ∀ (k : Nat) (r : List Char),
      (ws 16).data ++ ((slidesHTML k slides).data ++ ((ws 12).data ++ r)) =
        render (slidesTree k slides) ++ r := by
  induction slides with
  | nil =>
    intro k r
    simp only [slidesHTML, slidesTree, render, String.data_append, List.append_assoc,
      List.append_nil]
    rfl
  | cons slide rest ih =>
    intro k r
    simp only [slidesHTML, slidesTree, slideHTML, String.data_append, List.append_assoc]
    rw [render_text, render_el, ← ih (k + 1) r, ← slideInner_render, openTag_slide]
    simp only [String.data_append, List.append_assoc]
    rfl

theorem carouselTree_render (containerId : String) (slides : List SlideDesc) :
    (carouselHTML containerId slides).data = render (carouselTree containerId slides) := by
  have h := slidesTree_render slides 0
  rw [← List.append_nil (render (carouselTree containerId slides))]
  unfold carouselTree carouselInner
  simp only [render_text, render_el, render_nil]
  rw [← h]
  simp only [carouselHTML, String.data_append, List.append_assoc, List.append_nil]
  rw [openTag_root]
  rfl

/-! ### With plain strings the template depicts a plain tree -/

theorem okDom_text (ctx : Ctx) (t : String) (sib : Dom) (hne : ¬ t.data = [])
    (hch : ∀ c ∈ t.data, (!decide (c = '<') && textOk c) = true) (hnt : sib.isText = false)
    (hs : okDom ctx sib = true) : okDom ctx (Dom.text t sib) = true := by
  have h1 : t.data.isEmpty = false := by
    cases hd : t.data with
    | nil => exact absurd hd hne
    | cons c tl => rfl
  simp only [okDom, h1, hnt, hs, Bool.not_false, Bool.true_and, Bool.and_true,
    List.all_eq_true]
  exact hch

theorem okDom_el (ctx : Ctx) (tag : String) (attrs : List (String × String)) (ch sib : Dom)
    (ha : ctx.allows tag = true) (hattrs : attrsOk attrs = true)
    (hn : (attrs.map Prod.fst).Nodup) (hc : okDom (ctx.enter tag) ch = true)
    (hs : okDom ctx sib = true) : okDom ctx (el tag attrs ch sib) = true := by
  simp only [el, okDom, ha, hattrs, hn, hc, hs, decide_True, Bool.and_self]

theorem ws_ne (n : Nat) : ¬ (ws n).data = [] := by
  simp [ws]

theorem ws_chars (n : Nat) :
    ∀ c ∈ (ws n).data, (!decide (c = '<') && textOk c) = true := by
  intro c hc
  simp only [ws, List.mem_cons, List.mem_replicate] at hc
  rcases hc with h | ⟨_, h⟩ <;> subst h <;> decide

theorem ws2_ne (a b : Nat) : ¬ (ws a ++ ws b).data = [] := by
  simp [ws, String.data_append]

theorem ws2_chars (a b : Nat) :
    ∀ c ∈ (ws a ++ ws b).data, (!decide (c = '<') && textOk c) = true := by
  intro c hc
  simp only [String.data_append, List.mem_append] at hc
  rcases hc with h | h
  · exact ws_chars a c h
  · exact ws_chars b c h

theorem plain_text (s : String) (h : plainString s = true) :
    ∀ c ∈ s.data, (!decide (c = '<') && textOk c) = true := by
  intro c hc
  simp only [plainString, List.all_eq_true, Bool.and_eq_true] at h
  have := h c hc
  simp only [Bool.and_eq_true]
  exact this.1

theorem plain_attr (s : String) (h : plainString s = true) : s.data.all attrOk = true := by
  simp only [plainString, List.all_eq_true, Bool.and_eq_true] at h
  simp only [List.all_eq_true]
  intro c hc
  exact (h c hc).2

theorem attrsOk_cons (k v : String) (rest : List (String × String))
    (hk : k = "class" ∨ k = "id" ∨ k = "href") (hv : v.data.all attrOk = true)
    (hr : attrsOk rest = true) : attrsOk ((k, v) :: rest) = true := by
  simp only [attrsOk, hv, hr, Bool.and_true, Bool.or_eq_true, decide_eq_true_eq]
  rcases hk with h | h | h
  · exact Or.inl (Or.inl h)
  · exact Or.inl (Or.inr h)
  · exact Or.inr h

theorem attrsOk_class (v : String) (h : v.data.all attrOk = true) :
    attrsOk [("class", v)] = true :=
  attrsOk_cons _ _ _ (Or.inl rfl) h rfl

theorem okDom_textNode (ctx : Ctx) (t : String) (h : plainString t = true) :
    okDom ctx (textNode t) = true := by
  unfold textNode
  split
  · rfl
  · next hne =>
    refine okDom_text ctx t Dom.nil ?_ (plain_text t h) rfl rfl
    intro hd
    apply hne
    cases t
    simp only at hd
    subst hd
    rfl

theorem top_enter_div : Ctx.top.enter "div" = Ctx.top := by decide

theorem okDom_buttonTree (slide : SlideDesc) (h : plainSlide slide = true) :
    okDom Ctx.top (buttonTree slide) = true := by
  simp only [plainSlide, Bool.and_eq_true] at h
  obtain ⟨⟨_, hbt⟩, hlink⟩ := h
  have hempty : okDom Ctx.top (Dom.text (ws 32 ++ ws 28) Dom.nil) = true :=
    okDom_text _ _ _ (ws2_ne _ _) (ws2_chars _ _) rfl rfl
  unfold buttonTree
  cases hb : slide.buttonText with
  | none => exact hempty
  | some txt =>
    rw [hb] at hbt
    by_cases h0 : txt = ""
    · simp only [h0, if_true]
      exact hempty
    · simp only [h0, if_false]
      refine okDom_text _ _ _ (ws_ne _) (ws_chars _) rfl ?_
      refine okDom_el _ _ _ _ _ (by decide)
        (attrsOk_cons _ _ _ (Or.inr (Or.inr rfl)) (plain_attr _ hlink)
          (attrsOk_class _ (by decide))) (by simp) ?_ ?_
      · refine okDom_text _ _ _ ?_ (plain_text txt hbt) rfl rfl
        intro hd
        apply h0
        cases txt
        simp only at hd
        subst hd
        rfl
      · exact okDom_text _ _ Dom.nil (ws_ne _) (ws_chars _) rfl rfl

theorem okDom_slideInner (slide : SlideDesc) (h : plainSlide slide = true) :
    okDom Ctx.top (slideInner slide) = true := by
  have hb := okDom_buttonTree slide h
  simp only [plainSlide, Bool.and_eq_true] at h
  obtain ⟨⟨⟨⟨⟨htitle, hdesc⟩, hicon⟩, _⟩, _⟩, _⟩ := h
  unfold slideInner
  refine okDom_text _ _ _ (ws_ne _) (ws_chars _) rfl ?_
  refine okDom_el _ _ _ _ _ (by decide) (by decide) (by decide) ?_ ?_
  · rw [top_enter_div]
    refine okDom_text _ _ _ (ws_ne _) (ws_chars _) rfl ?_
    refine okDom_el _ _ _ _ _ (by decide) (by decide) (by decide) ?_ ?_
    · rw [top_enter_div]
      refine okDom_text _ _ _ (ws_ne _) (ws_chars _) rfl ?_
      refine okDom_el _ _ _ _ _ (by decide) (attrsOk_class _ (plain_attr _ hicon)) (by simp)
        ?_ ?_
      · rfl
      · exact okDom_text _ _ Dom.nil (ws_ne _) (ws_chars _) rfl rfl
    · refine okDom_text _ _ _ (ws_ne _) (ws_chars _) rfl ?_
      refine okDom_el _ _ _ _ _ (by decide) (by decide) (by decide) ?_ ?_
      · rw [top_enter_div]
        refine okDom_text _ _ _ (ws_ne _) (ws_chars _) rfl ?_
        refine okDom_el _ _ _ _ _ (by decide) (by decide) (by decide) ?_ ?_
        · exact okDom_textNode _ _ htitle
        · refine okDom_text _ _ _ (ws_ne _) (ws_chars _) rfl ?_
          refine okDom_el _ _ _ _ _ (by decide) (by decide) (by decide) ?_ ?_
          · exact okDom_textNode _ _ hdesc
          · exact hb
      · exact okDom_text _ _ Dom.nil (ws_ne _) (ws_chars _) rfl rfl
  · exact okDom_text _ _ Dom.nil (ws_ne _) (ws_chars _) rfl rfl

theorem slidesTree_isText (k : Nat) (slides : List SlideDesc) :
    (slidesTree k slides).isText = true := by
  cases slides <;> rfl

theorem okDom_slidesTree (slides : List SlideDesc) :
    ∀ k : Nat, (∀ s ∈ slides, plainSlide s = true) →
      okDom Ctx.top (slidesTree k slides) = true := by
  induction slides with
  | nil =>
    intro k _
    exact okDom_text _ _ Dom.nil (ws2_ne _ _) (ws2_chars _ _) rfl rfl
  | cons slide rest ih =>
    intro k h
    have hs := h slide (List.mem_cons_self _ _)
    unfold slidesTree
    refine okDom_text _ _ _ (ws2_ne _ _) (ws2_chars _ _) rfl ?_
    refine okDom_el _ _ _ _ _ (by decide) ?_ (by simp) ?_ ?_
    rotate_left
    · rw [top_enter_div]
      exact okDom_slideInner slide hs
    · exact ih (k + 1) (fun s hs => h s (List.mem_cons_of_mem _ hs))
    · apply attrsOk_class
      by_cases hk : k = 0
      · simp only [hk, if_true]
        decide
      · simp only [hk, if_false]
        decide

theorem okDom_carouselTree (containerId : String) (slides : List SlideDesc)
    (hid : plainString containerId = true) (hs : ∀ s ∈ slides, plainSlide s = true) :
    okDom Ctx.top (carouselTree containerId slides) = true := by
  unfold carouselTree carouselInner
  refine okDom_text _ _ _ (ws_ne _) (ws_chars _) rfl ?_
  have hidv : (containerId ++ "-carousel").data.all attrOk = true := by
    have h1 := plain_attr _ hid
    have h2 : "-carousel".data.all attrOk = true := by decide
    simp only [String.data_append, List.all_append, h1, h2, Bool.and_self]
  refine okDom_el _ _ _ _ _ (by decide)
    (attrsOk_cons _ _ _ (Or.inl rfl) (by decide)
      (attrsOk_cons _ _ _ (Or.inr (Or.inl rfl)) hidv rfl)) (by simp) ?_ ?_
  · rw [top_enter_div]
    refine okDom_text _ _ _ (ws_ne _) (ws_chars _) rfl ?_
    refine okDom_el _ _ _ _ _ (by decide) (by decide) (by decide) ?_ ?_
    · rw [top_enter_div]
      exact okDom_slidesTree slides 0 hs
    · refine okDom_text _ _ _ (ws_ne _) (ws_chars _) rfl ?_
      refine okDom_el _ _ _ _ _ (by decide) (by decide) (by decide) ?_ ?_
      · refine okDom_text _ _ _ (ws_ne _) (ws_chars _) rfl ?_
        refine okDom_el _ _ _ _ _ (by decide) (by decide) (by decide) ?_ ?_
        · rfl
        · exact okDom_text _ _ Dom.nil (ws_ne _) (ws_chars _) rfl rfl
      · refine okDom_text _ _ _ (ws_ne _) (ws_chars _) rfl ?_
        refine okDom_el _ _ _ _ _ (by decide) (by decide) (by decide) ?_ ?_
        · refine okDom_text _ _ _ (ws_ne _) (ws_chars _) rfl ?_
          refine okDom_el _ _ _ _ _ (by decide) (by decide) (by decide) ?_ ?_
          · rfl
          · exact okDom_text _ _ Dom.nil (ws_ne _) (ws_chars _) rfl rfl
        · refine okDom_text _ _ _ (ws_ne _) (ws_chars _) rfl ?_
          refine okDom_el _ _ _ _ _ (by decide) (by decide) (by decide) ?_ ?_
          · rfl
          · exact okDom_text _ _ Dom.nil (ws_ne _) (ws_chars _) rfl rfl
  · exact okDom_text _ _ Dom.nil (ws_ne _) (ws_chars _) rfl rfl

/-- With a plain container id and plain slides, the host parses the template
string to the tree it depicts. -/
theorem parseFragment_carouselHTML (containerId : String) (slides : List SlideDesc)
    (hid : plainString containerId = true) (hs : ∀ s ∈ slides, plainSlide s = true) :
    parseFragment "div" (carouselHTML containerId slides) =
      some (carouselTree containerId slides) :=
  parseFragment_render _ _ (okDom_carouselTree containerId slides hid hs)
    (carouselTree_render containerId slides)

/-! ### Lookup by id after `innerHTML` -/

theorem find_node_eq (tag : String) (attrs : List (String × String)) (op : Opacity)
    (ch sib : Dom) (id : String) (h : attrOf attrs "id" = id) :
    (Dom.node tag attrs op ch sib).find id = some (tag, ch) := by
  rw [Dom.find]
  simp only [h, if_true]

theorem find_node_ne (tag : String) (attrs : List (String × String)) (op : Opacity)
    (ch sib : Dom) (id : String) (h : ¬ attrOf attrs "id" = id) :
    (Dom.node tag attrs op ch sib).find id =
      match ch.find id with
      | some r => some r
      | none => sib.find id := by
  rw [Dom.find]
  simp only [h, if_false]

theorem find_text (t : String) (sib : Dom) (id : String) :
    (Dom.text t sib).find id = sib.find id := by
  rw [Dom.find]

theorem find_setChildren_self (d : Dom) (id : String) (content : Dom) (tag : String)
    (c0 : Dom) (h : d.find id = some (tag, c0)) :
    (setChildren d id content).find id = some (tag, content) := by
  induction d with
  | nil => simp [Dom.find] at h
  | text t sib ihs =>
    rw [find_text] at h
    rw [setChildren, find_text]
    exact ihs h
  | node tg attrs op ch sib ihc ihs =>
    rw [setChildren]
    by_cases hi : attrOf attrs "id" = id
    · rw [find_node_eq _ _ _ _ _ _ hi] at h
      rw [if_pos hi, find_node_eq _ _ _ _ _ _ hi]
      injection h with h
      injection h with h1 _
      rw [h1]
    · rw [find_node_ne _ _ _ _ _ _ hi] at h
      rw [if_neg hi]
      cases hch : ch.find id with
      | some r =>
        rw [hch] at h
        simp only [Option.isSome_some, if_true]
        rw [find_node_ne _ _ _ _ _ _ hi, ihc (by rw [hch]; exact h)]
      | none =>
        rw [hch] at h
        simp only [Option.isSome_none, Bool.false_eq_true, if_false]
        rw [find_node_ne _ _ _ _ _ _ hi, hch]
        exact ihs h

theorem find_setChildren_inner (d : Dom) (id y : String) (content : Dom)
    (h : (d.find id).isSome = true) (hc : (content.find y).isSome = true) :
    ((setChildren d id content).find y).isSome = true := by
  induction d with
  | nil => simp [Dom.find] at h
  | text t sib ihs =>
    rw [find_text] at h
    rw [setChildren, find_text]
    exact ihs h
  | node tg attrs op ch sib ihc ihs =>
    rw [setChildren]
    by_cases hy : attrOf attrs "id" = y
    · split
      · rw [find_node_eq _ _ _ _ _ _ hy]
        rfl
      · split
        · rw [find_node_eq _ _ _ _ _ _ hy]
          rfl
        · rw [find_node_eq _ _ _ _ _ _ hy]
          rfl
    · by_cases hi : attrOf attrs "id" = id
      · rw [if_pos hi, find_node_ne _ _ _ _ _ _ hy]
        obtain ⟨r, hr⟩ := Option.isSome_iff_exists.mp hc
        rw [hr]
        rfl
      · rw [find_node_ne _ _ _ _ _ _ hi] at h
        rw [if_neg hi]
        cases hch : ch.find id with
        | some r0 =>
          simp only [Option.isSome_some, if_true]
          rw [find_node_ne _ _ _ _ _ _ hy]
          obtain ⟨r, hr⟩ := Option.isSome_iff_exists.mp (ihc (by rw [hch]; rfl))
          rw [hr]
          rfl
        | none =>
          rw [hch] at h
          simp only [Option.isSome_none, Bool.false_eq_true, if_false]
          rw [find_node_ne _ _ _ _ _ _ hy]
          cases hcy : ch.find y with
          | some r => rfl
          | none => exact ihs h

theorem find_setChildren_fresh (d : Dom) (id y : String) (content : Dom)
    (h : (d.find id).isSome = true) (hy : d.find y = none) :
    (setChildren d id content).find y = content.find y := by
  induction d with
  | nil => simp [Dom.find] at h
  | text t sib ihs =>
    rw [find_text] at h hy
    rw [setChildren, find_text]
    exact ihs h hy
  | node tg attrs op ch sib ihc ihs =>
    have hiy : ¬ attrOf attrs "id" = y := by
      intro e
      rw [find_node_eq _ _ _ _ _ _ e] at hy
      cases hy
    rw [find_node_ne _ _ _ _ _ _ hiy] at hy
    have hcy : ch.find y = none := by
      cases hc : ch.find y with
      | none => rfl
      | some r => simp [hc] at hy
    have hsy : sib.find y = none := by
      rw [hcy] at hy
      exact hy
    rw [setChildren]
    by_cases hi : attrOf attrs "id" = id
    · rw [if_pos hi, find_node_ne _ _ _ _ _ _ hiy]
      cases hcc : content.find y with
      | some r => rfl
      | none => exact hsy
    · rw [find_node_ne _ _ _ _ _ _ hi] at h
      rw [if_neg hi]
      cases hch : ch.find id with
      | some r0 =>
        simp only [Option.isSome_some, if_true]
        rw [find_node_ne _ _ _ _ _ _ hiy, ihc (by rw [hch]; rfl) hcy]
        cases hcc : content.find y with
        | some r => rfl
        | none => exact hsy
      | none =>
        rw [hch] at h
        simp only [Option.isSome_none, Bool.false_eq_true, if_false]
        rw [find_node_ne _ _ _ _ _ _ hiy, hcy]
        exact ihs h hsy

theorem carouselTree_find (containerId : String) (slides : List SlideDesc) :
    (carouselTree containerId slides).find (containerId ++ "-carousel") =
      some ("div", carouselInner slides) := by
  unfold carouselTree el
  rw [find_text, find_node_eq]
  simp [attrOf]

/-! ### What the selectors find in the template's tree -/

theorem view_text (t : String) (sib : Dom) (tag : String) :
    (Dom.text t sib).slides = sib.slides ∧ (Dom.text t sib).textsOf tag = sib.textsOf tag ∧
      (Dom.text t sib).hasPrev = sib.hasPrev ∧ (Dom.text t sib).hasNext = sib.hasNext ∧
      (Dom.text t sib).indicatorsContainer = sib.indicatorsContainer :=
  ⟨rfl, rfl, rfl, rfl, rfl⟩

/-- An element that none of the constructor's selectors matches adds what its
children and later siblings add. -/
theorem view_plain_el (tag : String) (attrs : List (String × String)) (ch sib : Dom)
    (h1 : hasClass attrs "carousel-slide" = false)
    (h2 : hasClass attrs "carousel-indicators" = false) :
    (el tag attrs ch sib).slides = ch.slides ++ sib.slides ∧
      (el tag attrs ch sib).indicatorsContainer =
        (match ch.indicatorsContainer with
          | some r => some r
          | none => sib.indicatorsContainer) := by
  refine ⟨?_, ?_⟩
  · simp only [el, Dom.slides, h1, Bool.false_eq_true, if_false, List.nil_append]
  · simp only [el, Dom.indicatorsContainer, h2, Bool.false_eq_true, if_false]

theorem textsOf_el (tag : String) (attrs : List (String × String)) (ch sib : Dom)
    (t : String) :
    (el tag attrs ch sib).textsOf t =
      (if tag = t then [ch.ownText] else []) ++ ch.textsOf t ++ sib.textsOf t := rfl

theorem textNode_view (t : String) (tag : String) :
    (textNode t).slides = [] ∧ (textNode t).textsOf tag = [] ∧
      (textNode t).indicatorsContainer = none ∧ (textNode t).ownText = t := by
  unfold textNode
  split
  · next h => subst h; exact ⟨rfl, rfl, rfl, rfl⟩
  · refine ⟨rfl, rfl, rfl, ?_⟩
    simp [Dom.ownText]

theorem buttonTree_view (slide : SlideDesc) (tag : String) (ht : tag = "h3" ∨ tag = "p") :
    (buttonTree slide).slides = [] ∧ (buttonTree slide).textsOf tag = [] ∧
      (buttonTree slide).indicatorsContainer = none := by
  have hne : ¬ "a" = tag := by
    rcases ht with h | h <;> subst h <;> decide
  unfold buttonTree
  cases slide.buttonText with
  | none => exact ⟨rfl, rfl, rfl⟩
  | some txt =>
    by_cases h0 : txt = ""
    · simp only [h0, if_true]
      exact ⟨rfl, rfl, rfl⟩
    · simp only [h0, if_false]
      have hcls : attrOf [("href", jsOr slide.buttonLink "#"), ("class", "btn btn-primary")]
          "class" = "btn btn-primary" := by
        simp [attrOf]
      have hv := view_plain_el "a" [("href", jsOr slide.buttonLink "#"),
        ("class", "btn btn-primary")] (Dom.text txt Dom.nil) (Dom.text (ws 28) Dom.nil)
        (by simp only [hasClass, hcls]; decide) (by simp only [hasClass, hcls]; decide)
      refine ⟨?_, ?_, ?_⟩
      · rw [(view_text _ _ tag).1, hv.1]
        rfl
      · rw [(view_text _ _ tag).2.1, textsOf_el]
        simp only [hne, if_false]
        rfl
      · rw [(view_text _ _ tag).2.2.2.2, hv.2]
        rfl

theorem icon_no_slide (slide : SlideDesc) (h : plainSlide slide = true) :
    hasClass [("class", jsOr slide.icon "fas fa-image")] "carousel-slide" = false := by
  simp only [plainSlide, Bool.and_eq_true, Bool.not_eq_true'] at h
  obtain ⟨⟨⟨_, hicon⟩, _⟩, _⟩ := h
  simp only [hasClass, attrOf, if_true]
  exact hicon

theorem slideInner_view (slide : SlideDesc) (h : plainSlide slide = true) :
    (slideInner slide).slides = [] ∧ (slideInner slide).textsOf "h3" = [slide.title] ∧
      (slideInner slide).textsOf "p" = [slide.description] ∧
      ((slideInner slide).indicatorsContainer = none ∨
        (slideInner slide).indicatorsContainer = some Dom.nil) := by
  have hicon := icon_no_slide slide h
  have hb3 := buttonTree_view slide "h3" (Or.inl rfl)
  have hbp := buttonTree_view slide "p" (Or.inr rfl)
  have ht3 := textNode_view slide.title "h3"
  have htp := textNode_view slide.title "p"
  have hd3 := textNode_view slide.description "h3"
  have hdp := textNode_view slide.description "p"
  have c0 : hasClass [] "carousel-slide" = false := by decide
  have c1 : hasClass [("class", "slide-content")] "carousel-slide" = false := by decide
  have c2 : hasClass [("class", "slide-image")] "carousel-slide" = false := by decide
  have c3 : hasClass [("class", "slide-text")] "carousel-slide" = false := by decide
  have i0 : hasClass [] "carousel-indicators" = false := by decide
  have i1 : hasClass [("class", "slide-content")] "carousel-indicators" = false := by decide
  have i2 : hasClass [("class", "slide-image")] "carousel-indicators" = false := by decide
  have i3 : hasClass [("class", "slide-text")] "carousel-indicators" = false := by decide
  refine ⟨?_, ?_, ?_, ?_⟩
  · simp [slideInner, el, Dom.slides, hicon, ht3.1, hd3.1, hb3.1, c0, c1, c2, c3]
  · simp [slideInner, el, Dom.textsOf, ht3.2.1, hd3.2.1, hb3.2.1, ht3.2.2.2]
  · simp [slideInner, el, Dom.textsOf, htp.2.1, hdp.2.1, hbp.2.1, hdp.2.2.2]
  · by_cases hi : hasClass [("class", jsOr slide.icon "fas fa-image")]
        "carousel-indicators" = true
    · right
      simp [slideInner, el, Dom.indicatorsContainer, hi, i1, i2]
    · left
      simp [slideInner, el, Dom.indicatorsContainer, hi, ht3.2.2.1, hd3.2.2.1,
        hb3.2.2, i0, i1, i2, i3]

theorem slides_el (tag : String) (attrs : List (String × String)) (ch sib : Dom) :
    (el tag attrs ch sib).slides =
      (if hasClass attrs "carousel-slide" then [⟨hasClass attrs "active", Opacity.unset⟩]
        else []) ++ ch.slides ++ sib.slides := rfl

theorem indicatorsContainer_el (tag : String) (attrs : List (String × String))
    (ch sib : Dom) :
    (el tag attrs ch sib).indicatorsContainer =
      if hasClass attrs "carousel-indicators" then some ch
      else
        match ch.indicatorsContainer with
        | some r => some r
        | none => sib.indicatorsContainer := rfl

theorem slidesTree_cons (k : Nat) (slide : SlideDesc) (rest : List SlideDesc) :
    slidesTree k (slide :: rest) =
      Dom.text (ws 16 ++ ws 20)
        (el "div" [("class", "carousel-slide " ++ (if k = 0 then "active" else ""))]
          (slideInner slide) (slidesTree (k + 1) rest)) := rfl

theorem slideDiv_class (k : Nat) :
    hasClass [("class", "carousel-slide " ++ (if k = 0 then "active" else ""))]
        "carousel-slide" = true ∧
      hasClass [("class", "carousel-slide " ++ (if k = 0 then "active" else ""))] "active" =
        decide (k = 0) ∧
      hasClass [("class", "carousel-slide " ++ (if k = 0 then "active" else ""))]
        "carousel-indicators" = false := by
  by_cases hk : k = 0
  · simp only [hk, if_true]
    decide
  · simp only [hk, if_false]
    decide

theorem slidesTree_view (slides : List SlideDesc) :
    ∀ k : Nat, (∀ s ∈ slides, plainSlide s = true) →
      (slidesTree k slides).slides =
        (match slides with
          | [] => []
          | _ :: rest =>
            ⟨decide (k = 0), Opacity.unset⟩ ::
              List.replicate rest.length ⟨false, Opacity.unset⟩) ∧
      (slidesTree k slides).textsOf "h3" = slides.map (fun s => s.title) ∧
      (slidesTree k slides).textsOf "p" = slides.map (fun s => s.description) ∧
      ((slidesTree k slides).indicatorsContainer = none ∨
        (slidesTree k slides).indicatorsContainer = some Dom.nil) := by
  induction slides with
  | nil =>
    intro k _
    exact ⟨rfl, rfl, rfl, Or.inl rfl⟩
  | cons slide rest ih =>
    intro k h
    have hs := slideInner_view slide (h slide (List.mem_cons_self _ _))
    obtain ⟨r1, r2, r3, r4⟩ := ih (k + 1) (fun s hs => h s (List.mem_cons_of_mem _ hs))
    obtain ⟨d1, d2, d3⟩ := slideDiv_class k
    have hrest : (slidesTree (k + 1) rest).slides =
        List.replicate rest.length ⟨false, Opacity.unset⟩ := by
      rw [r1]
      cases rest with
      | nil => rfl
      | cons a tl => simp [List.replicate_succ]
    have hne3 : ¬ "div" = "h3" := by decide
    have hnep : ¬ "div" = "p" := by decide
    rw [slidesTree_cons]
    refine ⟨?_, ?_, ?_, ?_⟩
    · rw [(view_text _ _ "h3").1, slides_el, d1, d2, hs.1, hrest]
      rfl
    · rw [(view_text _ _ "h3").2.1, textsOf_el, hs.2.1, r2, if_neg hne3]
      rfl
    · rw [(view_text _ _ "p").2.1, textsOf_el, hs.2.2.1, r3, if_neg hnep]
      rfl
    · rw [(view_text _ _ "h3").2.2.2.2, indicatorsContainer_el, d3]
      simp only [Bool.false_eq_true, if_false]
      rcases hs.2.2.2 with h0 | h0
      · rw [h0]
        exact r4
      · rw [h0]
        exact Or.inr rfl

theorem carouselInner_view (slides : List SlideDesc) (h : ∀ s ∈ slides, plainSlide s = true) :
    (carouselInner slides).slides = firstActive slides.length ∧
      (carouselInner slides).textsOf "h3" = slides.map (fun s => s.title) ∧
      (carouselInner slides).textsOf "p" = slides.map (fun s => s.description) ∧
      (carouselInner slides).hasPrev = true ∧ (carouselInner slides).hasNext = true ∧
      (carouselInner slides).indicatorsContainer = some Dom.nil := by
  obtain ⟨r1, r2, r3, r4⟩ := slidesTree_view slides 0 h
  have c1 : hasClass [("class", "carousel-track")] "carousel-slide" = false := by decide
  have c2 : hasClass [("class", "carousel-btn prev")] "carousel-slide" = false := by decide
  have c3 : hasClass [("class", "carousel-btn next")] "carousel-slide" = false := by decide
  have c4 : hasClass [("class", "fas fa-chevron-left")] "carousel-slide" = false := by decide
  have c5 : hasClass [("class", "fas fa-chevron-right")] "carousel-slide" = false := by decide
  have c6 : hasClass [("class", "carousel-indicators")] "carousel-slide" = false := by decide
  have i1 : hasClass [("class", "carousel-track")] "carousel-indicators" = false := by decide
  have i2 : hasClass [("class", "carousel-btn prev")] "carousel-indicators" = false := by
    decide
  have i3 : hasClass [("class", "carousel-btn next")] "carousel-indicators" = false := by
    decide
  have i4 : hasClass [("class", "fas fa-chevron-left")] "carousel-indicators" = false := by
    decide
  have i5 : hasClass [("class", "fas fa-chevron-right")] "carousel-indicators" = false := by
    decide
  have i6 : hasClass [("class", "carousel-indicators")] "carousel-indicators" = true := by
    decide
  have p1 : hasClass [("class", "carousel-btn prev")] "carousel-btn" = true := by decide
  have p2 : hasClass [("class", "carousel-btn prev")] "prev" = true := by decide
  have n1 : hasClass [("class", "carousel-btn next")] "carousel-btn" = true := by decide
  have n2 : hasClass [("class", "carousel-btn next")] "next" = true := by decide
  have hne3 : ¬ "div" = "h3" := by decide
  have hnep : ¬ "div" = "p" := by decide
  have hb3 : ¬ "button" = "h3" := by decide
  have hbp : ¬ "button" = "p" := by decide
  have hi3 : ¬ "i" = "h3" := by decide
  have hip : ¬ "i" = "p" := by decide
  unfold carouselInner
  refine ⟨?_, ?_, ?_, ?_, ?_, ?_⟩
  · simp only [(view_text _ _ "h3").1, slides_el, r1, c1, c2, c3, c4, c5, c6,
      Bool.false_eq_true, if_false, List.nil_append, List.append_nil]
    cases slides <;> simp [Dom.slides, firstActive]
  · simp only [(view_text _ _ "h3").2.1, textsOf_el, r2, if_neg hne3, if_neg hb3, if_neg hi3,
      List.nil_append]
    simp [Dom.textsOf]
  · simp only [(view_text _ _ "p").2.1, textsOf_el, r3, if_neg hnep, if_neg hbp, if_neg hip,
      List.nil_append]
    simp [Dom.textsOf]
  · simp [el, Dom.hasPrev, p1, p2]
  · simp [el, Dom.hasNext, n1, n2]
  · simp only [(view_text _ _ "h3").2.2.2.2, indicatorsContainer_el, i1, i2, i3, i4, i5, i6,
      Bool.false_eq_true, if_false, if_true]
    rcases r4 with h0 | h0
    · rw [h0]
      rfl
    · rw [h0]

/-! ### `createCarousel` -/

theorem markupOf_carouselInner (slides : List SlideDesc)
    (h : ∀ s ∈ slides, plainSlide s = true) :
    markupOf (carouselInner slides) =
      { slides := firstActive slides.length, prevBtn := true, nextBtn := true,
        indicators := some [] } := by
  obtain ⟨h1, _, _, h4, h5, h6⟩ := carouselInner_view slides h
  simp only [markupOf, h1, h4, h5, h6, Option.map_some']
  rfl

set_option maxRecDepth 100000 in
/-- The host decodes the character references of the interpolated strings:
for a slide titled `Tom &amp; Jerry` with the link `/x?a=1&amp;b=2` the heading
reads `Tom & Jerry` and the link goes to `/x?a=1&b=2`. -/
theorem createCarousel_decodes_references :
    ((createCarousel demoPage "hero" entitySlides JsValue.undefined 0).map fun r =>
      match r with
      | Except.ok (page1, some s) =>
        ((getElementById page1 "hero-carousel").map fun e => e.2.textsOf "h3", s.slideCount)
      | _ => (none, none)) = some (some ["Tom & Jerry"], some 1) ∧
      (parseFragment "div" (buttonHTML ⟨"t", "d", none, some "Go", some "/x?a=1&amp;b=2"⟩)) =
        some (Dom.node "a" [("href", "/x?a=1&b=2"), ("class", "btn btn-primary")]
          Opacity.unset (Dom.text "Go" Dom.nil) Dom.nil) := by
  decide

set_option maxRecDepth 100000 in
/-- C12, as the claim states it, fails for strings that HTML reads as more
than text.  On a page with a `div` of id `hero`, one input slide whose icon
is the class name `carousel-slide` makes the `<i>` of the template a second
`.carousel-slide` element, and one input slide whose title is
`<div class="carousel-slide">x</div>` adds a slide element inside the
`<h3>`: in both cases the container's new content holds two slide elements
for one input slide and the carousel counts two slides.  And on a page whose
container has the id `hero"x`, the quote ends the `id` attribute of the
template: the new `.carousel` element has the id `hero`, no element has the
id `hero"x-carousel`, and with the type `progress` the call throws a
`TypeError` where the claim has it return a `ProgressCarousel`. -/
theorem createCarousel_extra_slide_element :
    iconSlides.length = 1 ∧ markupSlides.length = 1 ∧
      getElementById demoPage "hero" = some ("div", Dom.nil) ∧
      ((createCarousel demoPage "hero" iconSlides JsValue.undefined 0).map fun r =>
        match r with
        | Except.ok (page1, some s) =>
          ((getElementById page1 "hero").map (fun e => e.2.slides.length), s.slideCount,
            some s.variant)
        | _ => (none, none, none)) = some (some 2, some 2, some Variant.base) ∧
      ((createCarousel demoPage "hero" markupSlides JsValue.undefined 0).map fun r =>
        match r with
        | Except.ok (page1, some s) =>
          ((getElementById page1 "hero").map (fun e => e.2.slides.length), s.slideCount,
            some s.variant)
        | _ => (none, none, none)) = some (some 2, some 2, some Variant.base) ∧
      getElementById quotePage "hero\"x" = some ("div", Dom.nil) ∧
      ((createCarousel quotePage "hero\"x" demoSlides (JsValue.str "progress") 0).map fun r =>
        match r with
        | Except.error e => some e
        | Except.ok _ => none) = some (some JsError.typeError) ∧
      ((parseFragment "div" (carouselHTML "hero\"x" demoSlides)).map fun content =>
        ((content.find "hero").isSome, (content.find "hero\"x-carousel").isSome)) =
        some (true, false) := by
  decide

/-- C12 (amended). `createCarousel` returns `null` and leaves the page as it
is when no element has the id `containerId`.  Otherwise, when the container
is a `div`, the container id and the slides' strings are plain text (no `<`,
`&`, double quote, carriage return or NUL) and no slide's icon names the
class `carousel-slide`: the content of the container is replaced by the
markup of the template, whose `.carousel` element has the id
`<containerId>-carousel` and holds one slide element per input slide, in
input order (the headings are the input titles, the paragraphs the input
descriptions), only the first marked active, a prev and a next button and an
empty indicator container; no constructor throws; and the value returned is
a `FadeCarousel` when `options.type` is `fade`, a `ProgressCarousel` when it
is `progress`, and a `CarouselManager` for every other value, `default` and a
missing type included; where the page had no element of id
`<containerId>-carousel` before, it is the carousel the constructor builds
on the template's markup. -/
theorem createCarousel_spec (page : Dom) (containerId : String) (slides : List SlideDesc)
    (type : JsValue) (issued : Nat) :
    (getElementById page containerId = none →
        createCarousel page containerId slides type issued = some (Except.ok (page, none))) ∧
      (∀ children : Dom, getElementById page containerId = some ("div", children) →
        plainString containerId = true → (∀ sl ∈ slides, plainSlide sl = true) →
        ∃ s : State,
          createCarousel page containerId slides type issued =
            some (Except.ok
              (setChildren page containerId (carouselTree containerId slides), some s)) ∧
          parseFragment "div" (carouselHTML containerId slides) =
            some (carouselTree containerId slides) ∧
          getElementById (setChildren page containerId (carouselTree containerId slides))
            containerId = some ("div", carouselTree containerId slides) ∧
          (carouselTree containerId slides).find (containerId ++ "-carousel") =
            some ("div", carouselInner slides) ∧
          (carouselInner slides).slides = firstActive slides.length ∧
          (carouselInner slides).slides.length = slides.length ∧
          (carouselInner slides).textsOf "h3" = slides.map (fun sl => sl.title) ∧
          (carouselInner slides).textsOf "p" = slides.map (fun sl => sl.description) ∧
          (carouselInner slides).hasPrev = true ∧ (carouselInner slides).hasNext = true ∧
          (carouselInner slides).indicatorsContainer = some Dom.nil ∧
          s.variant =
            (if type = JsValue.str "fade" then Variant.fade
             else if type = JsValue.str "progress" then Variant.progress
             else Variant.base) ∧
          (getElementById page (containerId ++ "-carousel") = none →
            construct s.variant
              (some { slides := firstActive slides.length, prevBtn := true, nextBtn := true,
                      indicators := some [] }) issued = Except.ok s)) := by
  refine ⟨?_, ?_⟩
  · intro h
    simp only [createCarousel, h]
  · intro children hget hid hsl
    have hne : ¬ containerId = "" := by
      intro e
      simp [getElementById, e] at hget
    have hfind : page.find containerId = some ("div", children) := by
      simpa only [getElementById, hne, if_false] using hget
    have hparse := parseFragment_carouselHTML containerId slides hid hsl
    have hy := carousel_id_ne_empty containerId
    have htree := carouselTree_find containerId slides
    have hsome : (page.find containerId).isSome = true := by rw [hfind]; rfl
    have hroot := find_setChildren_inner page containerId (containerId ++ "-carousel")
      (carouselTree containerId slides) hsome (by rw [htree]; rfl)
    obtain ⟨el1, hel1⟩ := Option.isSome_iff_exists.mp hroot
    have hget1 : getElementById (setChildren page containerId (carouselTree containerId slides))
        (containerId ++ "-carousel") = some el1 := by
      simp only [getElementById, hy, if_false]
      exact hel1
    obtain ⟨s, hs⟩ := construct_some_ok (switchType (carouselType type)) (markupOf el1.2) issued
    have hv := construct_variant _ _ _ _ hs
    obtain ⟨v1, v2, v3, v4, v5, v6⟩ := carouselInner_view slides hsl
    have hlen : (firstActive slides.length).length = slides.length := by
      cases slides <;> simp [firstActive]
    refine ⟨s, ?_, hparse, ?_, htree, v1, by rw [v1, hlen], v2, v3, v4, v5, v6, ?_, ?_⟩
    · simp only [createCarousel, hget, hparse, hget1, Option.map_some', hs]
    · simp only [getElementById, hne, if_false]
      exact find_setChildren_self page containerId _ _ _ hfind
    · rw [hv, switchType_carouselType]
    · intro hfresh
      have hf : page.find (containerId ++ "-carousel") = none := by
        simpa only [getElementById, hy, if_false] using hfresh
      have h2 := find_setChildren_fresh page containerId (containerId ++ "-carousel")
        (carouselTree containerId slides) hsome hf
      rw [hel1, htree] at h2
      have hel2 : el1 = ("div", carouselInner slides) := Option.some.inj h2
      rw [hel2, markupOf_carouselInner slides hsl] at hs
      rw [hv]
      exact hs

/-- Witness for C12 (amended): two slides mounted on the `div` of id `hero`
as a progress carousel. -/
theorem createCarousel_spec_witness :
    getElementById demoPage "hero" = some ("div", Dom.nil) ∧
      plainString "hero" = true ∧ (∀ sl ∈ demoSlides, plainSlide sl = true) ∧
      ∃ s : State,
        createCarousel demoPage "hero" demoSlides (JsValue.str "progress") 0 =
          some (Except.ok (setChildren demoPage "hero" (carouselTree "hero" demoSlides),
            some s)) ∧
        (carouselInner demoSlides).slides = firstActive demoSlides.length ∧
        s.variant = Variant.progress :=
  ⟨by decide, by decide, by decide,
    let ⟨s, h1, _, _, _, h5, _, _, _, _, _, _, h12, _⟩ :=
      (createCarousel_spec demoPage "hero" demoSlides (JsValue.str "progress") 0).2 Dom.nil
        (by decide) (by decide) (by decide)
    ⟨s, h1, h5, by rw [h12]; decide⟩⟩

end Futogist
